import Mathlib

/-!
# Mesh part payloads (libraries/render-utils/src/MeshPartPayload.cpp)

A shallow embedding of `MeshPartPayload` (the base payload) and of
`ModelMeshPartPayload` (the skinned payload), followed by theorems about the
bound, cluster-buffer and pipeline-key operations.

The source file includes headers that are not part of the sources at hand
(`Transform`, `AABox`, `gpu::Buffer`, `gpu::Batch`, `render::ShapeKey`,
`render::ItemKey`, `graphics::Material`, `graphics::Mesh`).  The geometric
types are type parameters `X` (Transform), `B` (AABox) and `C` (the cluster
`TransformType`) and their operations are the fields of `Geometry`; the
remaining ones are small data models stated next to their definition.
-/

set_option autoImplicit false

/-! ## Collaborator types -/

/-- Modelled from the spec: `graphics::MaterialKey`, whose declaration is not
among the sources.  Only the five queries used by the payloads are kept, one
flag each; a default-constructed key has no flag set. -/
structure MaterialKey where
  translucent : Bool
  normalMap : Bool
  metallicMap : Bool
  lightmapMap : Bool
  unlitFlag : Bool
deriving DecidableEq

/-- The default-constructed `graphics::MaterialKey`. -/
def MaterialKey.empty : MaterialKey :=
  ⟨false, false, false, false, false⟩

def MaterialKey.isTranslucent (k : MaterialKey) : Bool := k.translucent
def MaterialKey.isNormalMap (k : MaterialKey) : Bool := k.normalMap
def MaterialKey.isMetallicMap (k : MaterialKey) : Bool := k.metallicMap
def MaterialKey.isLightmapMap (k : MaterialKey) : Bool := k.lightmapMap
def MaterialKey.isUnlit (k : MaterialKey) : Bool := k.unlitFlag

/-- Modelled from the spec: `graphics::Material` behind a `MaterialPointer`.
The field `ident` stands for the address of the shared object; a null pointer
is `none : Option Material`. -/
structure Material where
  ident : Nat
  key : MaterialKey
deriving DecidableEq

def Material.getKey (m : Material) : MaterialKey := m.key

/-- Modelled from the spec: `graphics::MaterialLayer`, a material pointer
with its layer priority. -/
structure MaterialLayer where
  material : Option Material
  priority : Nat
deriving DecidableEq

/-- Modelled from the spec: `graphics::MultiMaterial`, the material stack:
an ordered sequence of layers in insertion order. -/
abbrev MultiMaterial := List MaterialLayer

/-- Push of the material stack (`_drawMaterials.push`). -/
def MultiMaterial.push (s : MultiMaterial) (l : MaterialLayer) : MultiMaterial :=
  s ++ [l]

/-- The better of two layers: the one of higher priority, the earlier one on
a tie. -/
def MaterialLayer.better (a b : MaterialLayer) : MaterialLayer :=
  if a.priority < b.priority then b else a

/-- Modelled from the spec: `_drawMaterials.top()`, the highest-priority
entry of the stack.  The stack may be empty (the untextured default), and
then the entry carries no material. -/
def MultiMaterial.top : MultiMaterial → MaterialLayer
  | [] => ⟨none, 0⟩
  | l :: rest => rest.foldl MaterialLayer.better l

/-- Identity comparison of two material pointers. -/
def sameMaterial (a b : Option Material) : Bool :=
  a.map Material.ident == b.map Material.ident

/-- Modelled from the spec: `_drawMaterials.remove(material)`: removes the
first layer holding that material (by identity); a material that is not in
the stack leaves it as it is. -/
def MultiMaterial.remove : MultiMaterial → Option Material → MultiMaterial
  | [], _ => []
  | l :: rest, m =>
    if sameMaterial l.material m then rest else l :: MultiMaterial.remove rest m

/-- Modelled from the spec: `render::ShapeKey`, the pipeline-selection key:
one flag for each bit named by the spec, and the flag of the invalid
sentinel. -/
structure ShapeKey where
  material : Bool
  translucent : Bool
  lightmap : Bool
  tangents : Bool
  specular : Bool
  unlit : Bool
  skinned : Bool
  wireframe : Bool
  invalidFlag : Bool
deriving DecidableEq

namespace ShapeKey

/-- A default-constructed `ShapeKey::Builder`: no flag set. -/
def Builder : ShapeKey :=
  ⟨false, false, false, false, false, false, false, false, false⟩

def withMaterial (k : ShapeKey) : ShapeKey := { k with material := true }
def withTranslucent (k : ShapeKey) : ShapeKey := { k with translucent := true }
def withLightmap (k : ShapeKey) : ShapeKey := { k with lightmap := true }
def withTangents (k : ShapeKey) : ShapeKey := { k with tangents := true }
def withSpecular (k : ShapeKey) : ShapeKey := { k with specular := true }
def withUnlit (k : ShapeKey) : ShapeKey := { k with unlit := true }
def withSkinned (k : ShapeKey) : ShapeKey := { k with skinned := true }
def withWireframe (k : ShapeKey) : ShapeKey := { k with wireframe := true }
def invalidate (k : ShapeKey) : ShapeKey := { k with invalidFlag := true }
def build (k : ShapeKey) : ShapeKey := k

/-- The sentinel `ShapeKey::Builder::invalid()`. -/
def invalid : ShapeKey := Builder.invalidate.build

end ShapeKey

/-- Modelled from the spec: `render::ItemKey`, the visibility/sort key: the
shape type tag, the caller's tag bits (a `uint8_t`) and one flag for each
classification named by the spec. -/
structure ItemKey where
  typeShape : Bool
  invisible : Bool
  tagBits : Nat
  layered : Bool
  shadowCaster : Bool
  subMetaCulled : Bool
  deformed : Bool
  transparent : Bool
deriving DecidableEq

namespace ItemKey

/-- A default-constructed `ItemKey::Builder`. -/
def Builder : ItemKey :=
  ⟨false, false, 0, false, false, false, false, false⟩

def withTypeShape (k : ItemKey) : ItemKey := { k with typeShape := true }
def withInvisible (k : ItemKey) : ItemKey := { k with invisible := true }
def withTagBits (k : ItemKey) (bits : Nat) : ItemKey := { k with tagBits := bits % 256 }
def withLayered (k : ItemKey) : ItemKey := { k with layered := true }
def withShadowCaster (k : ItemKey) : ItemKey := { k with shadowCaster := true }
def withSubMetaCulled (k : ItemKey) : ItemKey := { k with subMetaCulled := true }
def withDeformed (k : ItemKey) : ItemKey := { k with deformed := true }
def withTransparent (k : ItemKey) : ItemKey := { k with transparent := true }
def build (k : ItemKey) : ItemKey := k

end ItemKey

/-- Modelled from the spec: the vertex attribute slots of `gpu::Stream`. -/
inductive StreamSlot where
  | position | normal | color | texcoord0 | tangent
  | skinClusterIndex | skinClusterWeight
deriving DecidableEq

/-- Modelled from the spec: the vertex-format descriptor of a mesh. -/
structure VertexFormat where
  ident : Nat
  attributes : List StreamSlot
deriving DecidableEq

def VertexFormat.hasAttribute (f : VertexFormat) (s : StreamSlot) : Bool :=
  f.attributes.contains s

/-- Modelled from the spec: `graphics::Mesh::Part`, a sub-range of the index
buffer (index offset and count). -/
structure Mesh.Part where
  startIndex : Nat
  numIndices : Nat
  baseVertex : Nat
deriving DecidableEq

/-- Modelled from the spec: the shared geometry `graphics::Mesh`: its vertex
format, its part buffer, and the identities of its index buffer and vertex
stream. -/
structure Mesh where
  vertexFormat : VertexFormat
  partBuffer : List Mesh.Part
  indexBuffer : Nat
  vertexStream : Nat
  numVertices : Nat
deriving DecidableEq

def Mesh.getVertexFormat (m : Mesh) : VertexFormat := m.vertexFormat
def Mesh.getNumVertices (m : Mesh) : Nat := m.numVertices

/-- The operations of the absent geometric types that the payload code calls:
`Transform::mult(result, left, right)`, `AABox::transform` by a `Transform`
and by a cluster pose (with `SKIN_DQ` the pose is first rebuilt from the
rotation, scale and translation of the cluster), `AABox::operator+=` on two
boxes, and `graphics::Mesh::evalPartBound`. -/
structure Geometry (X B C : Type) where
  mult : X → X → X
  transform : B → X → B
  transformCluster : B → C → B
  plus : B → B → B
  evalPartBound : Mesh → Nat → B
  sizeofNormalType : Nat

/-- Modelled from the spec: `gpu::Buffer` behind a `gpu::BufferPointer`:
`ident` stands for the address of the allocation and `data` for its
contents, counted in elements of the cluster `TransformType`. -/
structure Buffer (C : Type) where
  ident : Nat
  data : List C
deriving DecidableEq

/-- Modelled from the spec: `gpu::Buffer::setSubData(offset, size, data)`,
the in-place update of a buffer that is never reallocated once present: it
copies `size` elements over the range starting at `offset` and leaves the
size of the storage as it is; a range that is empty or does not fit in the
storage is not written. -/
def Buffer.setSubData {C : Type} (b : Buffer C) (offset size : Nat) (src : List C) : Buffer C :=
  if 0 < size ∧ offset + size ≤ b.data.length then
    { b with data := b.data.take offset ++ src.take size ++ b.data.drop (offset + size) }
  else b

/-- Modelled from the spec: the layers of `render::Item` used by `setLayer`. -/
inductive Layer where
  | LAYER_3D | LAYER_3D_FRONT | LAYER_3D_HUD
deriving DecidableEq

/-- Modelled from the spec: the commands a payload records into the
`gpu::Batch` (the draw-batch recorder), and the material binding of
`RenderPipelines::bindMaterial`. -/
inductive Command (X : Type) where
  | setModelTransform (t : X)
  | setIndexBuffer (buffer : Nat) (offset : Nat)
  | setInputFormat (format : VertexFormat)
  | setInputStream (startChannel : Nat) (stream : Nat) (rangeStart : Nat)
  | setInputBuffer (channel : Nat) (buffer : Nat) (offset : Nat) (stride : Nat)
  | setSkinningUniformBuffer (buffer : Nat)
  | bindMaterial (material : Option Material) (enableTexturing : Bool)
  | drawIndexedTriangles (numIndices : Nat) (startIndex : Nat)
deriving DecidableEq

/-- Modelled from the spec: `RenderArgs`: the open batch (the list of the
commands recorded so far), the render mode, the texturing switch and the two
counters of `_details`. -/
structure RenderArgs (X : Type) where
  batch : List (Command X)
  renderMode : Nat
  enableTexturing : Bool
  materialSwitches : Nat
  trianglesRendered : Nat
deriving DecidableEq

/-! ## MeshPartPayload: the base payload -/

/-- The data members of `MeshPartPayload`. -/
structure MeshPartPayload (X B : Type) where
  drawMesh : Option Mesh
  drawPart : Mesh.Part
  hasColorAttrib : Bool
  localBound : B
  transform : X
  drawTransform : X
  worldBound : B
  drawMaterials : MultiMaterial
  itemKey : ItemKey
deriving DecidableEq

namespace MeshPartPayload

variable {X B C : Type}

/-- The member `MeshPartPayload::updateMeshPart`.  Reading the part buffer at
an index outside of it is undefined in the source: the result is `none`. -/
def updateMeshPart (G : Geometry X B C) (drawMesh : Option Mesh) (partIndex : Int)
    (p : MeshPartPayload X B) : Option (MeshPartPayload X B) :=
  match drawMesh with
  | none => some { p with drawMesh := none }
  | some mesh =>
    if partIndex < 0 then none
    else
      match mesh.partBuffer[partIndex.toNat]? with
      | none => none
      | some part =>
        some { p with
          drawMesh := some mesh
          hasColorAttrib := mesh.getVertexFormat.hasAttribute StreamSlot.color
          drawPart := part
          localBound := G.evalPartBound mesh partIndex.toNat }

/-- The member `MeshPartPayload::updateTransform`. -/
def updateTransform (G : Geometry X B C) (transform offsetTransform : X)
    (p : MeshPartPayload X B) : MeshPartPayload X B :=
  let p1 := { p with transform := transform }
  let p2 := { p1 with drawTransform := G.mult p1.transform offsetTransform }
  let p3 := { p2 with worldBound := p2.localBound }
  { p3 with worldBound := G.transform p3.worldBound p3.drawTransform }

/-- The member `MeshPartPayload::addMaterial`. -/
def addMaterial (material : MaterialLayer) (p : MeshPartPayload X B) : MeshPartPayload X B :=
  { p with drawMaterials := p.drawMaterials.push material }

/-- The member `MeshPartPayload::removeMaterial`. -/
def removeMaterial (material : Option Material) (p : MeshPartPayload X B) :
    MeshPartPayload X B :=
  { p with drawMaterials := p.drawMaterials.remove material }

/-- The member `MeshPartPayload::updateKey`. -/
def updateKey (isVisible isLayered canCastShadow : Bool) (tagBits : Nat) (isGroupCulled : Bool)
    (p : MeshPartPayload X B) : MeshPartPayload X B :=
  let builder := ItemKey.Builder
  let builder := builder.withTypeShape
  let builder := if !isVisible then builder.withInvisible else builder
  let builder := builder.withTagBits tagBits
  let builder := if isLayered then builder.withLayered else builder
  let builder := if canCastShadow then builder.withShadowCaster else builder
  let builder := if isGroupCulled then builder.withSubMetaCulled else builder
  let builder :=
    match p.drawMaterials.top.material with
    | some material =>
      let matKey := material.getKey
      if matKey.isTranslucent then builder.withTransparent else builder
    | none => builder
  { p with itemKey := builder.build }

/-- The member `MeshPartPayload::getKey`. -/
def getKey (p : MeshPartPayload X B) : ItemKey := p.itemKey

/-- The member `MeshPartPayload::getBound`. -/
def getBound (p : MeshPartPayload X B) : B := p.worldBound

/-- The member `MeshPartPayload::getShapeKey`. -/
def getShapeKey (p : MeshPartPayload X B) : ShapeKey :=
  let drawMaterialKey :=
    match p.drawMaterials.top.material with
    | some material => material.getKey
    | none => MaterialKey.empty
  let builder := ShapeKey.Builder
  let builder := builder.withMaterial
  let builder := if drawMaterialKey.isTranslucent then builder.withTranslucent else builder
  let builder := if drawMaterialKey.isNormalMap then builder.withTangents else builder
  let builder := if drawMaterialKey.isMetallicMap then builder.withSpecular else builder
  let builder := if drawMaterialKey.isLightmapMap then builder.withLightmap else builder
  builder.build

/-- The member `MeshPartPayload::drawCall`. -/
def drawCall (p : MeshPartPayload X B) (batch : List (Command X)) : List (Command X) :=
  batch ++ [Command.drawIndexedTriangles p.drawPart.numIndices p.drawPart.startIndex]

/-- The member `MeshPartPayload::bindMesh`.  It dereferences the mesh pointer
unguarded: with no mesh bound the result is `none`. -/
def bindMesh (p : MeshPartPayload X B) (batch : List (Command X)) : Option (List (Command X)) :=
  match p.drawMesh with
  | none => none
  | some mesh =>
    let batch := batch ++ [Command.setIndexBuffer mesh.indexBuffer 0]
    let batch := batch ++ [Command.setInputFormat mesh.getVertexFormat]
    some (batch ++ [Command.setInputStream 0 mesh.vertexStream 0])

/-- The member `MeshPartPayload::bindTransform`. -/
def bindTransform (p : MeshPartPayload X B) (batch : List (Command X)) (_renderMode : Nat) :
    List (Command X) :=
  batch ++ [Command.setModelTransform p.drawTransform]

/-- The member `MeshPartPayload::render`: `args` is `none` for a null
pointer.  The result holds the payload and the render arguments after the
call. -/
def render (p : MeshPartPayload X B) :
    Option (RenderArgs X) → Option (MeshPartPayload X B × Option (RenderArgs X))
  | none => some (p, none)
  | some args =>
    let batch := p.bindTransform args.batch args.renderMode
    match p.bindMesh batch with
    | none => none
    | some batch =>
      let batch := batch ++ [Command.bindMaterial p.drawMaterials.top.material args.enableTexturing]
      let args := { args with materialSwitches := args.materialSwitches + 1 }
      let batch := p.drawCall batch
      some (p, some { args with
        batch := batch
        trianglesRendered := args.trianglesRendered + p.drawPart.numIndices / 3 })

end MeshPartPayload

/-! ## ModelMeshPartPayload: the skinned payload -/

/-- The data members of `ModelMeshPartPayload`, which derives from
`MeshPartPayload`. -/
structure ModelMeshPartPayload (X B C : Type) extends MeshPartPayload X B where
  clusterBuffer : Option (Buffer C)
  meshIndex : Int
  shapeID : Int
  isSkinned : Bool
  isBlendShaped : Bool
  hasTangents : Bool
  blendedVertexBuffer : Option Nat
  adjustedLocalBound : B
  shapeKey : ShapeKey
  layer : Layer
deriving DecidableEq

/-- A skinned payload together with the allocator of GPU buffers: `allocated`
counts the buffers created so far and is the identity given to the next one.
-/
structure Scene (X B C : Type) where
  payload : ModelMeshPartPayload X B C
  allocated : Nat
  args : RenderArgs X
deriving DecidableEq

namespace ModelMeshPartPayload

variable {X B C : Type}

/-- The inherited member `MeshPartPayload::updateMeshPart`. -/
def updateMeshPart (G : Geometry X B C) (drawMesh : Option Mesh) (partIndex : Int)
    (m : ModelMeshPartPayload X B C) : Option (ModelMeshPartPayload X B C) :=
  (m.toMeshPartPayload.updateMeshPart G drawMesh partIndex).map
    fun base => { m with toMeshPartPayload := base }

/-- The inherited member `MeshPartPayload::updateTransform`. -/
def updateTransform (G : Geometry X B C) (transform offsetTransform : X)
    (m : ModelMeshPartPayload X B C) : ModelMeshPartPayload X B C :=
  { m with toMeshPartPayload := m.toMeshPartPayload.updateTransform G transform offsetTransform }

/-- The inherited member `MeshPartPayload::addMaterial`. -/
def addMaterial (material : MaterialLayer) (m : ModelMeshPartPayload X B C) :
    ModelMeshPartPayload X B C :=
  { m with toMeshPartPayload := m.toMeshPartPayload.addMaterial material }

/-- The inherited member `MeshPartPayload::removeMaterial`. -/
def removeMaterial (material : Option Material) (m : ModelMeshPartPayload X B C) :
    ModelMeshPartPayload X B C :=
  { m with toMeshPartPayload := m.toMeshPartPayload.removeMaterial material }

/-- The inherited member `MeshPartPayload::getKey`. -/
def getKey (m : ModelMeshPartPayload X B C) : ItemKey := m.toMeshPartPayload.getKey

/-- The inherited member `MeshPartPayload::getBound`. -/
def getBound (m : ModelMeshPartPayload X B C) : B := m.toMeshPartPayload.getBound

/-- The member `ModelMeshPartPayload::updateClusterBuffer`, on the payload
and the count of allocated buffers.  Sizes are counted in cluster transforms
(the source multiplies both by `sizeof(TransformType)`). -/
def updateClusterBuffer (clusterTransforms : List C)
    (s : ModelMeshPartPayload X B C × Nat) : ModelMeshPartPayload X B C × Nat :=
  if clusterTransforms.length > 1 then
    match s.1.clusterBuffer with
    | none =>
      let created := Buffer.mk s.2 (clusterTransforms.take clusterTransforms.length)
      ({ s.1 with clusterBuffer := some created }, s.2 + 1)
    | some buffer =>
      let updated := buffer.setSubData 0 clusterTransforms.length clusterTransforms
      ({ s.1 with clusterBuffer := some updated }, s.2)
  else s

/-- The member `ModelMeshPartPayload::updateTransformForSkinnedMesh`. -/
def updateTransformForSkinnedMesh (G : Geometry X B C) (renderTransform boundTransform : X)
    (m : ModelMeshPartPayload X B C) : ModelMeshPartPayload X B C :=
  let m1 := { m with transform := renderTransform }
  let m2 := { m1 with worldBound := m1.adjustedLocalBound }
  { m2 with worldBound := G.transform m2.worldBound boundTransform }

/-- The member `ModelMeshPartPayload::updateKey`. -/
def updateKey (isVisible isLayered canCastShadow : Bool) (tagBits : Nat) (isGroupCulled : Bool)
    (m : ModelMeshPartPayload X B C) : ModelMeshPartPayload X B C :=
  let builder := ItemKey.Builder
  let builder := builder.withTypeShape
  let builder := if !isVisible then builder.withInvisible else builder
  let builder := builder.withTagBits tagBits
  let builder := if isLayered then builder.withLayered else builder
  let builder := if canCastShadow then builder.withShadowCaster else builder
  let builder := if isGroupCulled then builder.withSubMetaCulled else builder
  let builder := if m.isBlendShaped || m.isSkinned then builder.withDeformed else builder
  let builder :=
    match m.drawMaterials.top.material with
    | some material =>
      let matKey := material.getKey
      if matKey.isTranslucent then builder.withTransparent else builder
    | none => builder
  { m with itemKey := builder.build }

/-- The member `ModelMeshPartPayload::setLayer`. -/
def setLayer (isLayeredInFront isLayeredInHUD : Bool) (m : ModelMeshPartPayload X B C) :
    ModelMeshPartPayload X B C :=
  if isLayeredInFront then { m with layer := Layer.LAYER_3D_FRONT }
  else if isLayeredInHUD then { m with layer := Layer.LAYER_3D_HUD }
  else { m with layer := Layer.LAYER_3D }

/-- The member `ModelMeshPartPayload::getLayer`. -/
def getLayer (m : ModelMeshPartPayload X B C) : Layer := m.layer

/-- The member `ModelMeshPartPayload::setShapeKey`. -/
def setShapeKey (invalidateShapeKey isWireframe : Bool) (m : ModelMeshPartPayload X B C) :
    ModelMeshPartPayload X B C :=
  if invalidateShapeKey then { m with shapeKey := ShapeKey.invalid }
  else
    let drawMaterialKey :=
      match m.drawMaterials.top.material with
      | some material => material.getKey
      | none => MaterialKey.empty
    let isTranslucent := drawMaterialKey.isTranslucent
    let hasTangents := drawMaterialKey.isNormalMap && m.hasTangents
    let hasSpecular := drawMaterialKey.isMetallicMap
    let hasLightmap := drawMaterialKey.isLightmapMap
    let isUnlit := drawMaterialKey.isUnlit
    let isSkinned := m.isSkinned
    let isTranslucent := if isWireframe then false else isTranslucent
    let hasTangents := if isWireframe then false else hasTangents
    let hasSpecular := if isWireframe then false else hasSpecular
    let hasLightmap := if isWireframe then false else hasLightmap
    let isSkinned := if isWireframe then false else isSkinned
    let builder := ShapeKey.Builder
    let builder := builder.withMaterial
    let builder := if isTranslucent then builder.withTranslucent else builder
    let builder := if hasTangents then builder.withTangents else builder
    let builder := if hasSpecular then builder.withSpecular else builder
    let builder := if hasLightmap then builder.withLightmap else builder
    let builder := if isUnlit then builder.withUnlit else builder
    let builder := if isSkinned then builder.withSkinned else builder
    let builder := if isWireframe then builder.withWireframe else builder
    { m with shapeKey := builder.build }

/-- The member `ModelMeshPartPayload::getShapeKey`. -/
def getShapeKey (m : ModelMeshPartPayload X B C) : ShapeKey := m.shapeKey

/-- The member `ModelMeshPartPayload::bindMesh`; `sizeof(glm::vec3)` is 12
bytes.  It dereferences the mesh pointer unguarded: with no mesh bound the
result is `none`. -/
def bindMesh (G : Geometry X B C) (m : ModelMeshPartPayload X B C) (batch : List (Command X)) :
    Option (List (Command X)) :=
  match m.drawMesh with
  | none => none
  | some mesh =>
    let batch := batch ++ [Command.setIndexBuffer mesh.indexBuffer 0]
    let batch := batch ++ [Command.setInputFormat mesh.getVertexFormat]
    match m.isBlendShaped, m.blendedVertexBuffer with
    | true, some blended =>
      let batch := batch ++ [Command.setInputBuffer 0 blended 0 12]
      let batch := batch ++
        [Command.setInputBuffer 1 blended (mesh.getNumVertices * 12) (2 * G.sizeofNormalType)]
      some (batch ++ [Command.setInputStream 2 mesh.vertexStream 2])
    | _, _ => some (batch ++ [Command.setInputStream 0 mesh.vertexStream 0])

/-- The member `ModelMeshPartPayload::bindTransform`. -/
def bindTransform (m : ModelMeshPartPayload X B C) (batch : List (Command X))
    (_renderMode : Nat) : List (Command X) :=
  let batch :=
    match m.clusterBuffer with
    | some buffer => batch ++ [Command.setSkinningUniformBuffer buffer.ident]
    | none => batch
  batch ++ [Command.setModelTransform m.transform]

/-- The member `ModelMeshPartPayload::render`: `args` is `none` for a null
pointer.  The result holds the payload and the render arguments after the
call. -/
def render (G : Geometry X B C) (m : ModelMeshPartPayload X B C) :
    Option (RenderArgs X) → Option (ModelMeshPartPayload X B C × Option (RenderArgs X))
  | none => some (m, none)
  | some args =>
    let batch := m.bindTransform args.batch args.renderMode
    match m.bindMesh G batch with
    | none => none
    | some batch =>
      let batch := batch ++ [Command.bindMaterial m.drawMaterials.top.material args.enableTexturing]
      let args := { args with materialSwitches := args.materialSwitches + 1 }
      let batch := m.toMeshPartPayload.drawCall batch
      some (m, some { args with
        batch := batch
        trianglesRendered := args.trianglesRendered + m.drawPart.numIndices / 3 })

/-- The loop of `computeAdjustedLocalBound` over the clusters from index `i`
on: each one adds the local bound under its pose to the adjusted bound. -/
def computeAdjustedLocalBound.loop (G : Geometry X B C) (localBound : B)
    (clusterTransforms : List C) (i : Nat) (adjusted : B) : B :=
  if h : i < clusterTransforms.length then
    let clusterBound := localBound
    let clusterBound := G.transformCluster clusterBound clusterTransforms[i]
    computeAdjustedLocalBound.loop G localBound clusterTransforms (i + 1)
      (G.plus adjusted clusterBound)
  else adjusted
termination_by clusterTransforms.length - i

/-- The member `ModelMeshPartPayload::computeAdjustedLocalBound`. -/
def computeAdjustedLocalBound (G : Geometry X B C) (clusterTransforms : List C)
    (m : ModelMeshPartPayload X B C) : ModelMeshPartPayload X B C :=
  let m1 := { m with adjustedLocalBound := m.localBound }
  if h : clusterTransforms.length > 0 then
    let m2 := { m1 with
      adjustedLocalBound := G.transformCluster m1.adjustedLocalBound clusterTransforms[0] }
    { m2 with adjustedLocalBound :=
        computeAdjustedLocalBound.loop G m2.localBound clusterTransforms 1 m2.adjustedLocalBound }
  else m1

end ModelMeshPartPayload

/-! ## Sequences of operations on a skinned payload -/

/-- The mutating operations of a skinned payload, with their arguments;
`render true` renders with the scene's render arguments and `render false`
with a null pointer. -/
inductive Op (X C : Type) where
  | updateMeshPart (drawMesh : Option Mesh) (partIndex : Int)
  | updateTransform (transform offsetTransform : X)
  | updateTransformForSkinnedMesh (renderTransform boundTransform : X)
  | addMaterial (material : MaterialLayer)
  | removeMaterial (material : Option Material)
  | updateKey (isVisible isLayered canCastShadow : Bool) (tagBits : Nat) (isGroupCulled : Bool)
  | setLayer (isLayeredInFront isLayeredInHUD : Bool)
  | setShapeKey (invalidateShapeKey isWireframe : Bool)
  | updateClusterBuffer (clusterTransforms : List C)
  | computeAdjustedLocalBound (clusterTransforms : List C)
  | render (withContext : Bool)

/-- Whether the operation is a call of `setShapeKey`. -/
def Op.isSetShapeKey {X C : Type} : Op X C → Bool
  | Op.setShapeKey _ _ => true
  | _ => false

namespace Scene

variable {X B C : Type}

/-- One operation applied to the scene; `none` when the call is undefined in
the source (a part index outside the part buffer, a render without mesh). -/
def step (G : Geometry X B C) (op : Op X C) (s : Scene X B C) : Option (Scene X B C) :=
  match op with
  | Op.updateMeshPart drawMesh partIndex =>
    (s.payload.updateMeshPart G drawMesh partIndex).map fun m => { s with payload := m }
  | Op.updateTransform t o => some { s with payload := s.payload.updateTransform G t o }
  | Op.updateTransformForSkinnedMesh r b =>
    some { s with payload := s.payload.updateTransformForSkinnedMesh G r b }
  | Op.addMaterial l => some { s with payload := s.payload.addMaterial l }
  | Op.removeMaterial m => some { s with payload := s.payload.removeMaterial m }
  | Op.updateKey v l c t g => some { s with payload := s.payload.updateKey v l c t g }
  | Op.setLayer f h => some { s with payload := s.payload.setLayer f h }
  | Op.setShapeKey i w => some { s with payload := s.payload.setShapeKey i w }
  | Op.updateClusterBuffer cs =>
    let r := ModelMeshPartPayload.updateClusterBuffer cs (s.payload, s.allocated)
    some { s with payload := r.1, allocated := r.2 }
  | Op.computeAdjustedLocalBound cs =>
    some { s with payload := s.payload.computeAdjustedLocalBound G cs }
  | Op.render false =>
    (s.payload.render G none).map fun r => { s with payload := r.1 }
  | Op.render true =>
    (s.payload.render G (some s.args)).map fun r =>
      { s with payload := r.1, args := r.2.getD s.args }

/-- A sequence of operations applied in order. -/
def run (G : Geometry X B C) : List (Op X C) → Scene X B C → Option (Scene X B C)
  | [], s => some s
  | op :: ops, s => (step G op s).bind (run G ops)

/-- A sequence of `updateClusterBuffer` calls applied in order. -/
def updateClusterBuffers (calls : List (List C))
    (s : ModelMeshPartPayload X B C × Nat) : ModelMeshPartPayload X B C × Nat :=
  calls.foldl (fun acc cs => ModelMeshPartPayload.updateClusterBuffer cs acc) s

end Scene

/-! ## Auxiliary readings of the payload state -/

/-- The key of the topmost material, or the default-constructed key when no
material is bound: the value of `drawMaterialKey` in `setShapeKey`. -/
def topMaterialKey {X B C : Type} (m : ModelMeshPartPayload X B C) : MaterialKey :=
  match m.drawMaterials.top.material with
  | some material => material.getKey
  | none => MaterialKey.empty

/-! ## The adjusted bound in the words of the spec -/

/-- The adjusted bound as the spec words it: the local bound itself for no
cluster, and otherwise the union, over the cluster poses in order, of the
local bound transformed by each pose. -/
def unionOfClusterImages {X B C : Type} (G : Geometry X B C) (localBound : B) : List C → B
  | [] => localBound
  | c :: rest =>
    rest.foldl (fun acc d => G.plus acc (G.transformCluster localBound d))
      (G.transformCluster localBound c)

/-! ## An instance with integer coordinates -/

/-- A point or a displacement with integer coordinates. -/
structure Vec3 where
  x : Int
  y : Int
  z : Int
deriving DecidableEq

namespace Vec3

def add (a b : Vec3) : Vec3 := ⟨a.x + b.x, a.y + b.y, a.z + b.z⟩
def sub (a b : Vec3) : Vec3 := ⟨a.x - b.x, a.y - b.y, a.z - b.z⟩
def min (a b : Vec3) : Vec3 := ⟨Min.min a.x b.x, Min.min a.y b.y, Min.min a.z b.z⟩
def max (a b : Vec3) : Vec3 := ⟨Max.max a.x b.x, Max.max a.y b.y, Max.max a.z b.z⟩
def zero : Vec3 := ⟨0, 0, 0⟩

/-- Componentwise order. -/
def le (a b : Vec3) : Prop := a.x ≤ b.x ∧ a.y ≤ b.y ∧ a.z ≤ b.z

instance (a b : Vec3) : Decidable (Vec3.le a b) := by
  unfold Vec3.le
  exact inferInstance

end Vec3

/-- Modelled from the spec: an axis-aligned box, held as `AABox` holds it, by
its minimum corner and its dimensions, here with integer coordinates. -/
structure IBox where
  corner : Vec3
  scale : Vec3
deriving DecidableEq

namespace IBox

/-- The maximum corner of the box. -/
def calcTopFarLeft (b : IBox) : Vec3 := b.corner.add b.scale

/-- The box grown to hold one more point (`AABox::operator+=` on a point). -/
def addPoint (b : IBox) (p : Vec3) : IBox :=
  let maximum := Vec3.max (b.corner.add b.scale) p
  let corner := Vec3.min b.corner p
  ⟨corner, maximum.sub corner⟩

/-- The union of two boxes (`AABox::operator+=` on a box): the box grown to
hold both corners of the other one. -/
def plus (a b : IBox) : IBox := (a.addPoint b.corner).addPoint b.calcTopFarLeft

/-- The box moved by a displacement. -/
def translate (b : IBox) (t : Vec3) : IBox := ⟨b.corner.add t, b.scale⟩

/-- The first box contains the second one. -/
def contains (outer inner : IBox) : Prop :=
  Vec3.le outer.corner inner.corner ∧ Vec3.le inner.calcTopFarLeft outer.calcTopFarLeft

instance (a b : IBox) : Decidable (IBox.contains a b) := by
  unfold IBox.contains
  exact inferInstance

end IBox

/-- The geometry whose transforms and cluster poses are translations of
integer boxes. -/
def translationGeometry : Geometry Vec3 IBox Vec3 where
  mult := Vec3.add
  transform := IBox.translate
  transformCluster := IBox.translate
  plus := IBox.plus
  evalPartBound := fun _ _ => ⟨Vec3.zero, ⟨1, 1, 1⟩⟩
  sizeofNormalType := 12

/-- A mesh with one part of twelve indices. -/
def sampleMesh : Mesh where
  vertexFormat := ⟨7, [StreamSlot.position, StreamSlot.normal]⟩
  partBuffer := [⟨0, 12, 0⟩]
  indexBuffer := 3
  vertexStream := 4
  numVertices := 8

/-- A base payload on the sample mesh with the unit cube as local bound and
an empty material stack. -/
def samplePayload : MeshPartPayload Vec3 IBox where
  drawMesh := some sampleMesh
  drawPart := ⟨0, 12, 0⟩
  hasColorAttrib := false
  localBound := ⟨Vec3.zero, ⟨1, 1, 1⟩⟩
  transform := Vec3.zero
  drawTransform := Vec3.zero
  worldBound := ⟨Vec3.zero, ⟨1, 1, 1⟩⟩
  drawMaterials := []
  itemKey := ItemKey.Builder

/-- A skinned payload on the sample mesh, without cluster buffer and with the
invalid pipeline key it is constructed with. -/
def sampleSkinned : ModelMeshPartPayload Vec3 IBox Vec3 where
  toMeshPartPayload := samplePayload
  clusterBuffer := none
  meshIndex := 0
  shapeID := 0
  isSkinned := true
  isBlendShaped := false
  hasTangents := true
  blendedVertexBuffer := none
  adjustedLocalBound := ⟨Vec3.zero, ⟨1, 1, 1⟩⟩
  shapeKey := ShapeKey.invalid
  layer := Layer.LAYER_3D

/-- A scene around the sample skinned payload with an open, empty batch. -/
def sampleScene : Scene Vec3 IBox Vec3 where
  payload := sampleSkinned
  allocated := 0
  args := ⟨[], 0, true, 0, 0⟩

/-- The operations of the sample run: every mutating operation other than
`setShapeKey`, once. -/
def sampleOps : List (Op Vec3 Vec3) :=
  [Op.updateMeshPart (some sampleMesh) 0,
   Op.updateTransform (Vec3.mk 1 0 0) (Vec3.mk 0 1 0),
   Op.computeAdjustedLocalBound [Vec3.mk 5 0 0, Vec3.mk 0 7 0],
   Op.updateTransformForSkinnedMesh (Vec3.mk 2 0 0) (Vec3.mk 0 0 3),
   Op.addMaterial ⟨some ⟨1, ⟨true, true, false, false, true⟩⟩, 0⟩,
   Op.removeMaterial none,
   Op.updateKey true false true 5 false,
   Op.setLayer false true,
   Op.updateClusterBuffer [Vec3.mk 5 0 0, Vec3.mk 0 7 0],
   Op.render true,
   Op.render false]

/-- The sample scene after the sample run. -/
def sampleSceneAfter : Scene Vec3 IBox Vec3 where
  payload :=
    { drawMesh := some sampleMesh
      drawPart := ⟨0, 12, 0⟩
      hasColorAttrib := false
      localBound := ⟨Vec3.zero, ⟨1, 1, 1⟩⟩
      transform := Vec3.mk 2 0 0
      drawTransform := Vec3.mk 1 1 0
      worldBound := ⟨Vec3.mk 0 0 3, Vec3.mk 6 8 1⟩
      drawMaterials := [⟨some ⟨1, ⟨true, true, false, false, true⟩⟩, 0⟩]
      itemKey := ⟨true, false, 5, false, true, false, true, true⟩
      clusterBuffer := some ⟨0, [Vec3.mk 5 0 0, Vec3.mk 0 7 0]⟩
      meshIndex := 0
      shapeID := 0
      isSkinned := true
      isBlendShaped := false
      hasTangents := true
      blendedVertexBuffer := none
      adjustedLocalBound := ⟨Vec3.zero, Vec3.mk 6 8 1⟩
      shapeKey := ShapeKey.invalid
      layer := Layer.LAYER_3D_HUD }
  allocated := 1
  args :=
    { batch :=
        [Command.setSkinningUniformBuffer 0,
         Command.setModelTransform (Vec3.mk 2 0 0),
         Command.setIndexBuffer 3 0,
         Command.setInputFormat ⟨7, [StreamSlot.position, StreamSlot.normal]⟩,
         Command.setInputStream 0 4 0,
         Command.bindMaterial (some ⟨1, ⟨true, true, false, false, true⟩⟩) true,
         Command.drawIndexedTriangles 12 0]
      renderMode := 0
      enableTexturing := true
      materialSwitches := 1
      trianglesRendered := 4 }

/-! ## Keys and recorded commands in the words of the spec -/

/-- The key of the topmost material of a material stack, or the
default-constructed key when no material is bound: the value of
`drawMaterialKey` in `getShapeKey` and `setShapeKey`. -/
def drawMaterialKeyOf (s : MultiMaterial) : MaterialKey :=
  match s.top.material with
  | some material => material.getKey
  | none => MaterialKey.empty

/-- The pipeline key of a base payload as the spec words it: the
has-material bit, and the translucency, normal-map, metallic-map and
lightmap-map presence of the topmost material; the tangents bit is the one
that stands for the normal map. -/
def shapeKeyOfMaterialKey (k : MaterialKey) : ShapeKey where
  material := true
  translucent := k.isTranslucent
  lightmap := k.isLightmapMap
  tangents := k.isNormalMap
  specular := k.isMetallicMap
  unlit := false
  skinned := false
  wireframe := false
  invalidFlag := false

/-- Whether the command is a draw. -/
def Command.isDraw {X : Type} : Command X → Bool
  | Command.drawIndexedTriangles _ _ => true
  | _ => false

/-- The commands of one render of a base payload as the spec words them: the
draw transform, the index buffer, the vertex format and the vertex stream of
the mesh, the topmost material, and one indexed draw over the index range of
the part. -/
def baseRenderCommands {X B : Type} (p : MeshPartPayload X B) (mesh : Mesh)
    (enableTexturing : Bool) : List (Command X) :=
  [Command.setModelTransform p.drawTransform,
   Command.setIndexBuffer mesh.indexBuffer 0,
   Command.setInputFormat mesh.getVertexFormat,
   Command.setInputStream 0 mesh.vertexStream 0,
   Command.bindMaterial p.drawMaterials.top.material enableTexturing,
   Command.drawIndexedTriangles p.drawPart.numIndices p.drawPart.startIndex]

/-- The vertex bindings of a skinned payload as the spec words them: the
position and the interleaved normal and tangent streams of the blended
vertex buffer when the payload is blend-shaped and that buffer exists, and
the static vertex stream of the mesh otherwise. -/
def skinnedVertexCommands {X B C : Type} (G : Geometry X B C) (m : ModelMeshPartPayload X B C)
    (mesh : Mesh) : List (Command X) :=
  match m.isBlendShaped, m.blendedVertexBuffer with
  | true, some blended =>
    [Command.setInputBuffer 0 blended 0 12,
     Command.setInputBuffer 1 blended (mesh.getNumVertices * 12) (2 * G.sizeofNormalType),
     Command.setInputStream 2 mesh.vertexStream 2]
  | _, _ => [Command.setInputStream 0 mesh.vertexStream 0]

/-- The commands of one render of a skinned payload as the spec words them:
the cluster buffer as skinning uniform when it is present, the model
transform, the index buffer and the vertex format of the mesh, the vertex
bindings, the topmost material, and one indexed draw. -/
def skinnedRenderCommands {X B C : Type} (G : Geometry X B C) (m : ModelMeshPartPayload X B C)
    (mesh : Mesh) (enableTexturing : Bool) : List (Command X) :=
  (match m.clusterBuffer with
    | some buffer => [Command.setSkinningUniformBuffer buffer.ident]
    | none => []) ++
  [Command.setModelTransform m.transform,
   Command.setIndexBuffer mesh.indexBuffer 0,
   Command.setInputFormat mesh.getVertexFormat] ++
  skinnedVertexCommands G m mesh ++
  [Command.bindMaterial m.drawMaterials.top.material enableTexturing,
   Command.drawIndexedTriangles m.drawPart.numIndices m.drawPart.startIndex]

/-- A material whose key declares a normal map and nothing else. -/
def normalMapMaterial : Material := ⟨1, ⟨false, true, false, false, false⟩⟩

/-- A material whose key is unlit and nothing else. -/
def unlitMaterial : Material := ⟨2, ⟨false, false, false, false, true⟩⟩

/-- A material whose key is translucent and nothing else. -/
def translucentMaterial : Material := ⟨3, ⟨true, false, false, false, false⟩⟩

/-! ## Lemmas on the adjusted bound -/

section AdjustedBound

variable {X B C : Type}

/-- The loop from index `i` folds the union over the clusters from `i` on. -/
theorem computeAdjustedLocalBound_loop_eq (G : Geometry X B C) (localBound : B) (cs : List C) :
    ∀ (n i : Nat) (acc : B), cs.length - i = n →
      ModelMeshPartPayload.computeAdjustedLocalBound.loop G localBound cs i acc =
        (cs.drop i).foldl (fun a d => G.plus a (G.transformCluster localBound d)) acc := by
  intro n
  induction n with
  | zero =>
    intro i acc h
    have hi : cs.length ≤ i := by omega
    rw [ModelMeshPartPayload.computeAdjustedLocalBound.loop]
    rw [dif_neg (by omega), List.drop_of_length_le hi]
    rfl
  | succ k ih =>
    intro i acc h
    have hi : i < cs.length := by omega
    rw [ModelMeshPartPayload.computeAdjustedLocalBound.loop]
    rw [dif_pos hi, List.drop_eq_getElem_cons hi]
    simp only [List.foldl_cons]
    exact ih (i + 1) _ (by omega)

/-- The adjusted bound stored by `computeAdjustedLocalBound` is the union of
the cluster images of the local bound. -/
theorem computeAdjustedLocalBound_adjusted (G : Geometry X B C) (cs : List C)
    (m : ModelMeshPartPayload X B C) :
    (m.computeAdjustedLocalBound G cs).adjustedLocalBound =
      unionOfClusterImages G m.localBound cs := by
  cases cs with
  | nil => simp [ModelMeshPartPayload.computeAdjustedLocalBound, unionOfClusterImages]
  | cons c rest =>
    simp only [ModelMeshPartPayload.computeAdjustedLocalBound, unionOfClusterImages,
      List.length_cons, gt_iff_lt, Nat.zero_lt_succ, dite_true, List.getElem_cons_zero]
    rw [computeAdjustedLocalBound_loop_eq G m.localBound (c :: rest) rest.length 1 _ (by simp)]
    simp

/-- Only the adjusted bound is written by `computeAdjustedLocalBound`. -/
theorem computeAdjustedLocalBound_frame (G : Geometry X B C) (cs : List C)
    (m : ModelMeshPartPayload X B C) :
    m.computeAdjustedLocalBound G cs =
      { m with adjustedLocalBound := (m.computeAdjustedLocalBound G cs).adjustedLocalBound } := by
  unfold ModelMeshPartPayload.computeAdjustedLocalBound
  split <;> rfl

/-- The payload after `computeAdjustedLocalBound`, in closed form. -/
theorem computeAdjustedLocalBound_eq (G : Geometry X B C) (cs : List C)
    (m : ModelMeshPartPayload X B C) :
    m.computeAdjustedLocalBound G cs =
      { m with adjustedLocalBound := unionOfClusterImages G m.localBound cs } := by
  rw [computeAdjustedLocalBound_frame G cs m, computeAdjustedLocalBound_adjusted G cs m]

/-- A fold of unions contains its starting box. -/
theorem foldl_plus_contains_init (G : Geometry X B C) (contains : B → B → Prop)
    (hrefl : ∀ a, contains a a)
    (htrans : ∀ a b c, contains a b → contains b c → contains a c)
    (hleft : ∀ a b, contains (G.plus a b) a) (f : C → B) (l : List C) (a : B) :
    contains (l.foldl (fun acc d => G.plus acc (f d)) a) a := by
  induction l generalizing a with
  | nil => exact hrefl a
  | cons d rest ih =>
    simp only [List.foldl_cons]
    exact htrans _ _ _ (ih (G.plus a (f d))) (hleft a (f d))

/-- A fold of unions contains every box that it adds. -/
theorem foldl_plus_contains_mem (G : Geometry X B C) (contains : B → B → Prop)
    (hrefl : ∀ a, contains a a)
    (htrans : ∀ a b c, contains a b → contains b c → contains a c)
    (hleft : ∀ a b, contains (G.plus a b) a) (hright : ∀ a b, contains (G.plus a b) b)
    (f : C → B) (l : List C) (a : B) (c : C) (hc : c ∈ l) :
    contains (l.foldl (fun acc d => G.plus acc (f d)) a) (f c) := by
  induction l generalizing a with
  | nil => cases hc
  | cons d rest ih =>
    simp only [List.foldl_cons]
    rcases List.mem_cons.mp hc with h | h
    · subst h
      exact htrans _ _ _
        (foldl_plus_contains_init G contains hrefl htrans hleft f rest _) (hright a (f c))
    · exact ih (G.plus a (f d)) h

/-- The union of cluster images contains the image under every pose. -/
theorem unionOfClusterImages_contains (G : Geometry X B C) (contains : B → B → Prop)
    (hrefl : ∀ a, contains a a)
    (htrans : ∀ a b c, contains a b → contains b c → contains a c)
    (hleft : ∀ a b, contains (G.plus a b) a) (hright : ∀ a b, contains (G.plus a b) b)
    (localBound : B) (cs : List C) (c : C) (hc : c ∈ cs) :
    contains (unionOfClusterImages G localBound cs) (G.transformCluster localBound c) := by
  cases cs with
  | nil => cases hc
  | cons d rest =>
    simp only [unionOfClusterImages]
    rcases List.mem_cons.mp hc with h | h
    · subst h
      exact foldl_plus_contains_init G contains hrefl htrans hleft _ rest _
    · exact foldl_plus_contains_mem G contains hrefl htrans hleft hright _ rest _ c h

/-- The union of the images under copies of a pose that fixes the local
bound is the local bound, when the union of the local bound with itself is
the local bound. -/
theorem unionOfClusterImages_replicate (G : Geometry X B C) (localBound : B) (c : C)
    (hI : G.transformCluster localBound c = localBound)
    (hU : G.plus localBound localBound = localBound) (n : Nat) :
    unionOfClusterImages G localBound (List.replicate n c) = localBound := by
  have hfold : ∀ k : Nat,
      (List.replicate k c).foldl (fun acc d => G.plus acc (G.transformCluster localBound d))
        localBound = localBound := by
    intro k
    induction k with
    | zero => rfl
    | succ j ih => simp only [List.replicate_succ, List.foldl_cons, hI, hU]; simpa [hI] using ih
  cases n with
  | zero => rfl
  | succ j => simp only [List.replicate_succ, unionOfClusterImages, hI]; simpa [hI] using hfold j

end AdjustedBound

/-! ## Lemmas on the integer boxes -/

theorem IBox.contains_refl (a : IBox) : IBox.contains a a := by
  simp [IBox.contains, Vec3.le]

theorem IBox.contains_trans (a b c : IBox) (hab : IBox.contains a b) (hbc : IBox.contains b c) :
    IBox.contains a c := by
  simp only [IBox.contains, Vec3.le, IBox.calcTopFarLeft, Vec3.add] at *
  omega

theorem IBox.plus_contains_left (a b : IBox) : IBox.contains (IBox.plus a b) a := by
  simp only [IBox.contains, Vec3.le, IBox.calcTopFarLeft, Vec3.add, IBox.plus, IBox.addPoint,
    Vec3.min, Vec3.max, Vec3.sub]
  omega

theorem IBox.plus_contains_right (a b : IBox) : IBox.contains (IBox.plus a b) b := by
  simp only [IBox.contains, Vec3.le, IBox.calcTopFarLeft, Vec3.add, IBox.plus, IBox.addPoint,
    Vec3.min, Vec3.max, Vec3.sub]
  omega

/-! ## Bounds -/

section Bounds

variable {X B C : Type}

/-- C1: after `updateTransform(T, O)`, on the base payload and on the skinned
payload that inherits the member, `getBound()` is the cached local bound
transformed by the draw transform `mult T O`, the stored local transform is
`T`, the draw transform is `mult T O`, and the local bound is kept. -/
theorem updateTransform_getBound (G : Geometry X B C) (T O : X) (p : MeshPartPayload X B)
    (m : ModelMeshPartPayload X B C) :
    (p.updateTransform G T O).getBound = G.transform p.localBound (G.mult T O) ∧
    (p.updateTransform G T O).transform = T ∧
    (p.updateTransform G T O).drawTransform = G.mult T O ∧
    (p.updateTransform G T O).localBound = p.localBound ∧
    (m.updateTransform G T O).getBound = G.transform m.localBound (G.mult T O) ∧
    (m.updateTransform G T O).transform = T ∧
    (m.updateTransform G T O).drawTransform = G.mult T O ∧
    (m.updateTransform G T O).localBound = m.localBound :=
  ⟨rfl, rfl, rfl, rfl, rfl, rfl, rfl, rfl⟩

/-- C2: `computeAdjustedLocalBound(cs)` stores the local bound itself when
`cs` is empty and otherwise the union, over the elements of `cs`, of the
local bound transformed by each; it writes no other member, and its result
is the same whatever adjusted bound `b` was stored before. -/
theorem computeAdjustedLocalBound_union (G : Geometry X B C) (cs : List C)
    (m : ModelMeshPartPayload X B C) (b : B) :
    (m.computeAdjustedLocalBound G []).adjustedLocalBound = m.localBound ∧
    (m.computeAdjustedLocalBound G cs).adjustedLocalBound =
      unionOfClusterImages G m.localBound cs ∧
    m.computeAdjustedLocalBound G cs =
      { m with adjustedLocalBound := unionOfClusterImages G m.localBound cs } ∧
    ({ m with adjustedLocalBound := b }).computeAdjustedLocalBound G cs =
      m.computeAdjustedLocalBound G cs := by
  refine ⟨computeAdjustedLocalBound_adjusted G [] m, computeAdjustedLocalBound_adjusted G cs m,
    ?_, ?_⟩
  · exact computeAdjustedLocalBound_eq G cs m
  · rw [computeAdjustedLocalBound_eq G cs m,
      computeAdjustedLocalBound_eq G cs { m with adjustedLocalBound := b }]

/-- C3: when the pose `identity` leaves the local bound as it is and the
union of the local bound with itself is the local bound, then
`computeAdjustedLocalBound` on `N` copies of `identity` stores an adjusted
bound equal to the local bound, for every `N`. -/
theorem computeAdjustedLocalBound_identity (G : Geometry X B C) (identity : C) (N : Nat)
    (m : ModelMeshPartPayload X B C)
    (hI : G.transformCluster m.localBound identity = m.localBound)
    (hU : G.plus m.localBound m.localBound = m.localBound) :
    (m.computeAdjustedLocalBound G (List.replicate N identity)).adjustedLocalBound =
      m.localBound := by
  rw [computeAdjustedLocalBound_adjusted]
  exact unionOfClusterImages_replicate G m.localBound identity hI hU N

/-- Witness of C3: two identity translations on the sample skinned payload. -/
theorem computeAdjustedLocalBound_identity_witness :
    translationGeometry.transformCluster sampleSkinned.localBound Vec3.zero =
      sampleSkinned.localBound ∧
    translationGeometry.plus sampleSkinned.localBound sampleSkinned.localBound =
      sampleSkinned.localBound ∧
    (sampleSkinned.computeAdjustedLocalBound translationGeometry
        (List.replicate 2 Vec3.zero)).adjustedLocalBound = sampleSkinned.localBound :=
  ⟨by decide, by decide,
    computeAdjustedLocalBound_identity translationGeometry Vec3.zero 2 sampleSkinned
      (by decide) (by decide)⟩

/-- Counterexample to C4: the single pose that moves the unit cube by five
units along x is a translation away from the origin, and the adjusted bound
it yields equals the image of the local bound under that pose, so it does
not strictly contain it; the same holds when the pose is given twice. -/
theorem computeAdjustedLocalBound_not_strict :
    Vec3.mk 5 0 0 ≠ Vec3.zero ∧
    (sampleSkinned.computeAdjustedLocalBound translationGeometry
        [Vec3.mk 5 0 0]).adjustedLocalBound =
      translationGeometry.transformCluster sampleSkinned.localBound (Vec3.mk 5 0 0) ∧
    (sampleSkinned.computeAdjustedLocalBound translationGeometry
        [Vec3.mk 5 0 0, Vec3.mk 5 0 0]).adjustedLocalBound =
      translationGeometry.transformCluster sampleSkinned.localBound (Vec3.mk 5 0 0) ∧
    ¬ (∀ c ∈ [Vec3.mk 5 0 0],
        IBox.contains
          (sampleSkinned.computeAdjustedLocalBound translationGeometry
            [Vec3.mk 5 0 0]).adjustedLocalBound
          (translationGeometry.transformCluster sampleSkinned.localBound c) ∧
        (sampleSkinned.computeAdjustedLocalBound translationGeometry
            [Vec3.mk 5 0 0]).adjustedLocalBound ≠
          translationGeometry.transformCluster sampleSkinned.localBound c) := by
  have h1 : (sampleSkinned.computeAdjustedLocalBound translationGeometry
        [Vec3.mk 5 0 0]).adjustedLocalBound =
      translationGeometry.transformCluster sampleSkinned.localBound (Vec3.mk 5 0 0) := by
    rw [computeAdjustedLocalBound_adjusted]
    decide
  have h2 : (sampleSkinned.computeAdjustedLocalBound translationGeometry
        [Vec3.mk 5 0 0, Vec3.mk 5 0 0]).adjustedLocalBound =
      translationGeometry.transformCluster sampleSkinned.localBound (Vec3.mk 5 0 0) := by
    rw [computeAdjustedLocalBound_adjusted]
    decide
  refine ⟨by decide, h1, h2, ?_⟩
  intro h
  exact (h (Vec3.mk 5 0 0) (List.mem_singleton.mpr rfl)).2 h1

/-- C4, amended: when `contains` is reflexive and transitive and the union
of two boxes contains both, the adjusted bound stored by
`computeAdjustedLocalBound(cs)` contains the image of the local bound under
every cluster pose of `cs`. -/
theorem computeAdjustedLocalBound_contains_images (G : Geometry X B C)
    (contains : B → B → Prop) (hrefl : ∀ a, contains a a)
    (htrans : ∀ a b c, contains a b → contains b c → contains a c)
    (hleft : ∀ a b, contains (G.plus a b) a) (hright : ∀ a b, contains (G.plus a b) b)
    (cs : List C) (m : ModelMeshPartPayload X B C) (c : C) (hc : c ∈ cs) :
    contains (m.computeAdjustedLocalBound G cs).adjustedLocalBound
      (G.transformCluster m.localBound c) := by
  rw [computeAdjustedLocalBound_adjusted]
  exact unionOfClusterImages_contains G contains hrefl htrans hleft hright m.localBound cs c hc

/-- Witness of C4, amended: two distinct translations of the sample skinned
payload, whose adjusted bound contains the image under the first. -/
theorem computeAdjustedLocalBound_contains_images_witness :
    (∀ a, IBox.contains a a) ∧
    (∀ a b c, IBox.contains a b → IBox.contains b c → IBox.contains a c) ∧
    (∀ a b, IBox.contains (translationGeometry.plus a b) a) ∧
    (∀ a b, IBox.contains (translationGeometry.plus a b) b) ∧
    Vec3.mk 5 0 0 ∈ [Vec3.mk 5 0 0, Vec3.mk 0 7 0] ∧
    IBox.contains
      (sampleSkinned.computeAdjustedLocalBound translationGeometry
        [Vec3.mk 5 0 0, Vec3.mk 0 7 0]).adjustedLocalBound
      (translationGeometry.transformCluster sampleSkinned.localBound (Vec3.mk 5 0 0)) :=
  ⟨IBox.contains_refl, IBox.contains_trans, IBox.plus_contains_left, IBox.plus_contains_right,
    by decide,
    computeAdjustedLocalBound_contains_images translationGeometry IBox.contains
      IBox.contains_refl IBox.contains_trans IBox.plus_contains_left IBox.plus_contains_right
      [Vec3.mk 5 0 0, Vec3.mk 0 7 0] sampleSkinned (Vec3.mk 5 0 0) (by decide)⟩

end Bounds

/-! ## The cluster buffer -/

section ClusterBuffer

variable {X B C : Type}

theorem Buffer.setSubData_ident (b : Buffer C) (offset size : Nat) (src : List C) :
    (b.setSubData offset size src).ident = b.ident := by
  unfold Buffer.setSubData
  split <;> rfl

theorem updateClusterBuffer_few (cs : List C) (s : ModelMeshPartPayload X B C × Nat)
    (h : cs.length ≤ 1) : ModelMeshPartPayload.updateClusterBuffer cs s = s := by
  unfold ModelMeshPartPayload.updateClusterBuffer
  rw [if_neg (by omega)]

theorem updateClusterBuffer_absent (cs : List C) (s : ModelMeshPartPayload X B C × Nat)
    (h : 1 < cs.length) (hb : s.1.clusterBuffer = none) :
    ModelMeshPartPayload.updateClusterBuffer cs s =
      ({ s.1 with clusterBuffer := some ⟨s.2, cs⟩ }, s.2 + 1) := by
  unfold ModelMeshPartPayload.updateClusterBuffer
  rw [if_pos h]
  simp [hb]

theorem updateClusterBuffer_present (cs : List C) (s : ModelMeshPartPayload X B C × Nat)
    (b : Buffer C) (h : 1 < cs.length) (hb : s.1.clusterBuffer = some b) :
    ModelMeshPartPayload.updateClusterBuffer cs s =
      ({ s.1 with clusterBuffer := some (b.setSubData 0 cs.length cs) }, s.2) := by
  unfold ModelMeshPartPayload.updateClusterBuffer
  rw [if_pos h]
  simp [hb]

/-- A present buffer keeps its identity through one call, and nothing is
allocated. -/
theorem updateClusterBuffer_keeps_ident (cs : List C) (s : ModelMeshPartPayload X B C × Nat)
    (b : Buffer C) (hb : s.1.clusterBuffer = some b) :
    ∃ b2, (ModelMeshPartPayload.updateClusterBuffer cs s).1.clusterBuffer = some b2 ∧
      b2.ident = b.ident ∧ (ModelMeshPartPayload.updateClusterBuffer cs s).2 = s.2 := by
  by_cases h : 1 < cs.length
  · rw [updateClusterBuffer_present cs s b h hb]
    exact ⟨_, rfl, Buffer.setSubData_ident b 0 cs.length cs, rfl⟩
  · rw [updateClusterBuffer_few cs s (by omega)]
    exact ⟨b, hb, rfl, rfl⟩

/-- A present buffer keeps its identity through every sequence of calls. -/
theorem updateClusterBuffers_keeps_ident (calls : List (List C)) :
    ∀ (s : ModelMeshPartPayload X B C × Nat) (b : Buffer C), s.1.clusterBuffer = some b →
      ∃ b2, (Scene.updateClusterBuffers calls s).1.clusterBuffer = some b2 ∧
        b2.ident = b.ident ∧ (Scene.updateClusterBuffers calls s).2 = s.2 := by
  induction calls with
  | nil => intro s b hb; exact ⟨b, hb, rfl, rfl⟩
  | cons cs rest ih =>
    intro s b hb
    obtain ⟨b1, h1, hid1, hn1⟩ := updateClusterBuffer_keeps_ident cs s b hb
    obtain ⟨b2, h2, hid2, hn2⟩ := ih (ModelMeshPartPayload.updateClusterBuffer cs s) b1 h1
    refine ⟨b2, ?_, ?_, ?_⟩
    · simpa [Scene.updateClusterBuffers] using h2
    · rw [hid2, hid1]
    · simpa [Scene.updateClusterBuffers, hn1] using hn2

/-- Calls with at most one cluster change nothing. -/
theorem updateClusterBuffers_few (calls : List (List C)) :
    ∀ (s : ModelMeshPartPayload X B C × Nat), (∀ c ∈ calls, c.length ≤ 1) →
      Scene.updateClusterBuffers calls s = s := by
  induction calls with
  | nil => intro s _; rfl
  | cons cs rest ih =>
    intro s h
    have hcs : cs.length ≤ 1 := h cs (List.mem_cons_self cs rest)
    have hrest : ∀ c ∈ rest, c.length ≤ 1 := fun c hc => h c (List.mem_cons_of_mem cs hc)
    simp only [Scene.updateClusterBuffers, List.foldl_cons]
    rw [updateClusterBuffer_few cs s hcs]
    exact ih s hrest

theorem updateClusterBuffers_append (pre post : List (List C))
    (s : ModelMeshPartPayload X B C × Nat) :
    Scene.updateClusterBuffers (pre ++ post) s =
      Scene.updateClusterBuffers post (Scene.updateClusterBuffers pre s) := by
  simp [Scene.updateClusterBuffers, List.foldl_append]

/-- C5: a call of `updateClusterBuffer` with at most one cluster transform
changes nothing, so an absent buffer stays absent and nothing is allocated; a
call with more than one on a payload without buffer allocates one buffer,
which gets a fresh identity; a present buffer keeps its identity through
every later sequence of calls, and none of them allocates; hence in a
sequence that starts without buffer, the first call with more than one
cluster transform, at the end of `few ++ [cs]`, is the only allocation,
whatever calls `later` follow. -/
theorem updateClusterBuffer_allocates_once (s : ModelMeshPartPayload X B C × Nat)
    (cs : List C) (few later : List (List C)) :
    (cs.length ≤ 1 → ModelMeshPartPayload.updateClusterBuffer cs s = s) ∧
    (1 < cs.length → s.1.clusterBuffer = none →
      ∃ b, (ModelMeshPartPayload.updateClusterBuffer cs s).1.clusterBuffer = some b ∧
        b.ident = s.2 ∧ (ModelMeshPartPayload.updateClusterBuffer cs s).2 = s.2 + 1) ∧
    (∀ b, s.1.clusterBuffer = some b →
      ∃ b2, (Scene.updateClusterBuffers later s).1.clusterBuffer = some b2 ∧
        b2.ident = b.ident ∧ (Scene.updateClusterBuffers later s).2 = s.2) ∧
    (s.1.clusterBuffer = none → (∀ c ∈ few, c.length ≤ 1) → 1 < cs.length →
      (Scene.updateClusterBuffers few s).1.clusterBuffer = none ∧
      ∃ b, (Scene.updateClusterBuffers (few ++ cs :: later) s).1.clusterBuffer = some b ∧
        b.ident = s.2 ∧ (Scene.updateClusterBuffers (few ++ cs :: later) s).2 = s.2 + 1) := by
  refine ⟨updateClusterBuffer_few cs s, ?_, updateClusterBuffers_keeps_ident later s, ?_⟩
  · intro h hb
    rw [updateClusterBuffer_absent cs s h hb]
    exact ⟨_, rfl, rfl, rfl⟩
  · intro hb hfew h
    rw [updateClusterBuffers_few few s hfew]
    refine ⟨hb, ?_⟩
    rw [updateClusterBuffers_append, updateClusterBuffers_few few s hfew]
    have hstep : Scene.updateClusterBuffers (cs :: later) s =
        Scene.updateClusterBuffers later (ModelMeshPartPayload.updateClusterBuffer cs s) := by
      simp [Scene.updateClusterBuffers]
    rw [hstep, updateClusterBuffer_absent cs s h hb]
    obtain ⟨b2, h2, hid, hn⟩ := updateClusterBuffers_keeps_ident later
      (({ s.1 with clusterBuffer := some ⟨s.2, cs⟩ }, s.2 + 1) :
        ModelMeshPartPayload X B C × Nat) ⟨s.2, cs⟩ rfl
    exact ⟨b2, h2, hid, hn⟩

/-- Witness of C5 on the sample skinned payload: a single-cluster call, the
allocating call, a later sequence on the allocated buffer, and the sequence
of a single-cluster call, the allocating call and two later calls. -/
theorem updateClusterBuffer_allocates_once_witness :
    ModelMeshPartPayload.updateClusterBuffer [Vec3.zero] (sampleSkinned, 0) =
      (sampleSkinned, 0) ∧
    (∃ b, (ModelMeshPartPayload.updateClusterBuffer [Vec3.zero, Vec3.mk 1 0 0]
        (sampleSkinned, 0)).1.clusterBuffer = some b ∧ b.ident = 0 ∧
      (ModelMeshPartPayload.updateClusterBuffer [Vec3.zero, Vec3.mk 1 0 0]
        (sampleSkinned, 0)).2 = 0 + 1) ∧
    (∃ b2, (Scene.updateClusterBuffers [[Vec3.mk 2 0 0, Vec3.mk 3 0 0], [], [Vec3.zero]]
        ({ sampleSkinned with clusterBuffer := some ⟨4, [Vec3.zero, Vec3.zero]⟩ },
          5)).1.clusterBuffer = some b2 ∧ b2.ident = 4 ∧
      (Scene.updateClusterBuffers [[Vec3.mk 2 0 0, Vec3.mk 3 0 0], [], [Vec3.zero]]
        ({ sampleSkinned with clusterBuffer := some ⟨4, [Vec3.zero, Vec3.zero]⟩ },
          5)).2 = 5) ∧
    ((Scene.updateClusterBuffers [[Vec3.zero]] (sampleSkinned, 0)).1.clusterBuffer = none ∧
      ∃ b, (Scene.updateClusterBuffers
          ([[Vec3.zero]] ++ [Vec3.zero, Vec3.mk 1 0 0] ::
            [[Vec3.mk 2 0 0, Vec3.mk 3 0 0, Vec3.mk 4 0 0], []])
          (sampleSkinned, 0)).1.clusterBuffer = some b ∧ b.ident = 0 ∧
        (Scene.updateClusterBuffers
          ([[Vec3.zero]] ++ [Vec3.zero, Vec3.mk 1 0 0] ::
            [[Vec3.mk 2 0 0, Vec3.mk 3 0 0, Vec3.mk 4 0 0], []])
          (sampleSkinned, 0)).2 = 0 + 1) :=
  ⟨(updateClusterBuffer_allocates_once (sampleSkinned, 0) [Vec3.zero] [] []).1 (by decide),
    (updateClusterBuffer_allocates_once (sampleSkinned, 0) [Vec3.zero, Vec3.mk 1 0 0]
      [] []).2.1 (by decide) rfl,
    (updateClusterBuffer_allocates_once
      ({ sampleSkinned with clusterBuffer := some ⟨4, [Vec3.zero, Vec3.zero]⟩ }, 5) []
      [] [[Vec3.mk 2 0 0, Vec3.mk 3 0 0], [], [Vec3.zero]]).2.2.1
      ⟨4, [Vec3.zero, Vec3.zero]⟩ rfl,
    (updateClusterBuffer_allocates_once (sampleSkinned, 0) [Vec3.zero, Vec3.mk 1 0 0]
      [[Vec3.zero]] [[Vec3.mk 2 0 0, Vec3.mk 3 0 0, Vec3.mk 4 0 0], []]).2.2.2
      rfl (by decide) (by decide)⟩

end ClusterBuffer

/-! ## The pipeline key -/

section PipelineKey

variable {X B C : Type}

/-- The key stored by a non-invalidating `setShapeKey`, flag by flag. -/
theorem setShapeKey_false_key (isWireframe : Bool) (m : ModelMeshPartPayload X B C) :
    (m.setShapeKey false isWireframe).shapeKey =
      { material := true
        translucent := !isWireframe && (topMaterialKey m).translucent
        lightmap := !isWireframe && (topMaterialKey m).lightmapMap
        tangents := !isWireframe && ((topMaterialKey m).normalMap && m.hasTangents)
        specular := !isWireframe && (topMaterialKey m).metallicMap
        unlit := (topMaterialKey m).unlitFlag
        skinned := !isWireframe && m.isSkinned
        wireframe := isWireframe
        invalidFlag := false } := by
  have hk : (match m.drawMaterials.top.material with
      | some material => material.getKey
      | none => MaterialKey.empty) = topMaterialKey m := rfl
  simp only [ModelMeshPartPayload.setShapeKey, Bool.false_eq_true, if_false, hk]
  rcases topMaterialKey m with ⟨t, n, me, l, u⟩
  cases isWireframe <;> cases t <;> cases n <;> cases me <;> cases l <;> cases u <;>
    cases m.hasTangents <;> cases m.isSkinned <;> rfl

/-- A non-invalidating `setShapeKey` writes the pipeline key only. -/
theorem setShapeKey_frame (invalidateShapeKey isWireframe : Bool)
    (m : ModelMeshPartPayload X B C) :
    m.setShapeKey invalidateShapeKey isWireframe =
      { m with shapeKey := (m.setShapeKey invalidateShapeKey isWireframe).shapeKey } := by
  unfold ModelMeshPartPayload.setShapeKey
  split <;> rfl

/-- C7: after `setShapeKey(true, isWireframe)`, `getShapeKey()` returns the
invalid sentinel, for every payload state and every `isWireframe`, and no
other member of the payload is changed. -/
theorem setShapeKey_invalidate (isWireframe : Bool) (m : ModelMeshPartPayload X B C) :
    (m.setShapeKey true isWireframe).getShapeKey = ShapeKey.invalid ∧
    m.setShapeKey true isWireframe = { m with shapeKey := ShapeKey.invalid } :=
  ⟨rfl, rfl⟩

/-- C8: after `setShapeKey(false, false)`, `getShapeKey()` has the
has-material bit set, does not carry the invalid flag and is not the invalid
sentinel, for every payload state: whatever key was stored before and
whatever the material stack holds. -/
theorem setShapeKey_valid (m : ModelMeshPartPayload X B C) :
    (m.setShapeKey false false).getShapeKey.material = true ∧
    (m.setShapeKey false false).getShapeKey.invalidFlag = false ∧
    (m.setShapeKey false false).getShapeKey ≠ ShapeKey.invalid := by
  unfold ModelMeshPartPayload.getShapeKey
  rw [setShapeKey_false_key]
  refine ⟨rfl, rfl, ?_⟩
  intro h
  have hm := congrArg ShapeKey.material h
  simp [ShapeKey.invalid, ShapeKey.Builder, ShapeKey.invalidate, ShapeKey.build] at hm

/-- C10: the pipeline key stored by `setShapeKey(false, true)` has the
wireframe bit set and none of the translucent, tangents, specular, lightmap
and skinned bits, whatever the topmost material and the cached flags are. -/
theorem setShapeKey_wireframe (m : ModelMeshPartPayload X B C) :
    (m.setShapeKey false true).getShapeKey.wireframe = true ∧
    (m.setShapeKey false true).getShapeKey.translucent = false ∧
    (m.setShapeKey false true).getShapeKey.tangents = false ∧
    (m.setShapeKey false true).getShapeKey.specular = false ∧
    (m.setShapeKey false true).getShapeKey.lightmap = false ∧
    (m.setShapeKey false true).getShapeKey.skinned = false := by
  unfold ModelMeshPartPayload.getShapeKey
  rw [setShapeKey_false_key]
  exact ⟨rfl, rfl, rfl, rfl, rfl, rfl⟩

end PipelineKey

/-! ## Which operations write the pipeline key -/

section KeyWriters

variable {X B C : Type}

theorem updateClusterBuffer_shapeKey (cs : List C) (s : ModelMeshPartPayload X B C × Nat) :
    (ModelMeshPartPayload.updateClusterBuffer cs s).1.shapeKey = s.1.shapeKey := by
  unfold ModelMeshPartPayload.updateClusterBuffer
  split
  · split <;> rfl
  · rfl

theorem computeAdjustedLocalBound_shapeKey (G : Geometry X B C) (cs : List C)
    (m : ModelMeshPartPayload X B C) :
    (m.computeAdjustedLocalBound G cs).shapeKey = m.shapeKey := by
  rw [computeAdjustedLocalBound_frame]

theorem setLayer_shapeKey (f h : Bool) (m : ModelMeshPartPayload X B C) :
    (m.setLayer f h).shapeKey = m.shapeKey := by
  unfold ModelMeshPartPayload.setLayer
  split
  · rfl
  · split <;> rfl

theorem updateMeshPart_shapeKey (G : Geometry X B C) (drawMesh : Option Mesh) (partIndex : Int)
    (m r : ModelMeshPartPayload X B C) (h : m.updateMeshPart G drawMesh partIndex = some r) :
    r.shapeKey = m.shapeKey := by
  unfold ModelMeshPartPayload.updateMeshPart at h
  cases hb : m.toMeshPartPayload.updateMeshPart G drawMesh partIndex with
  | none => simp [hb] at h
  | some base =>
    simp only [hb, Option.map, Option.some.injEq] at h
    rw [← h]

theorem render_payload (G : Geometry X B C) (m : ModelMeshPartPayload X B C)
    (args : Option (RenderArgs X)) (r : ModelMeshPartPayload X B C × Option (RenderArgs X))
    (h : m.render G args = some r) : r.1 = m := by
  cases args with
  | none =>
    simp only [ModelMeshPartPayload.render, Option.some.injEq] at h
    rw [← h]
  | some a =>
    simp only [ModelMeshPartPayload.render] at h
    split at h
    · cases h
    · simp only [Option.some.injEq] at h
      rw [← h]

/-- An operation that changes the stored pipeline key is a `setShapeKey`. -/
theorem step_shapeKey (G : Geometry X B C) (op : Op X C) (s t : Scene X B C)
    (h : Scene.step G op s = some t) (hop : op.isSetShapeKey = false) :
    t.payload.shapeKey = s.payload.shapeKey := by
  cases op with
  | updateMeshPart drawMesh partIndex =>
    simp only [Scene.step] at h
    cases hm : s.payload.updateMeshPart G drawMesh partIndex with
    | none => simp [hm] at h
    | some r =>
      simp only [hm, Option.map, Option.some.injEq] at h
      rw [← h]
      exact updateMeshPart_shapeKey G drawMesh partIndex s.payload r hm
  | updateTransform a b =>
    simp only [Scene.step, Option.some.injEq] at h
    rw [← h]; rfl
  | updateTransformForSkinnedMesh a b =>
    simp only [Scene.step, Option.some.injEq] at h
    rw [← h]; rfl
  | addMaterial l =>
    simp only [Scene.step, Option.some.injEq] at h
    rw [← h]; rfl
  | removeMaterial l =>
    simp only [Scene.step, Option.some.injEq] at h
    rw [← h]; rfl
  | updateKey v l c tb g =>
    simp only [Scene.step, Option.some.injEq] at h
    rw [← h]; rfl
  | setLayer f hud =>
    simp only [Scene.step, Option.some.injEq] at h
    rw [← h]
    exact setLayer_shapeKey f hud s.payload
  | setShapeKey i w => simp [Op.isSetShapeKey] at hop
  | updateClusterBuffer cs =>
    simp only [Scene.step, Option.some.injEq] at h
    rw [← h]
    exact updateClusterBuffer_shapeKey cs (s.payload, s.allocated)
  | computeAdjustedLocalBound cs =>
    simp only [Scene.step, Option.some.injEq] at h
    rw [← h]
    exact computeAdjustedLocalBound_shapeKey G cs s.payload
  | render withContext =>
    cases withContext with
    | false =>
      simp only [Scene.step] at h
      cases hr : s.payload.render G none with
      | none => simp [hr] at h
      | some r =>
        simp only [hr, Option.map, Option.some.injEq] at h
        rw [← h]
        exact congrArg ModelMeshPartPayload.shapeKey (render_payload G s.payload none r hr)
    | true =>
      simp only [Scene.step] at h
      cases hr : s.payload.render G (some s.args) with
      | none => simp [hr] at h
      | some r =>
        simp only [hr, Option.map, Option.some.injEq] at h
        rw [← h]
        exact congrArg ModelMeshPartPayload.shapeKey
          (render_payload G s.payload (some s.args) r hr)

/-- The key after one step of `setShapeKey`. -/
theorem step_setShapeKey (G : Geometry X B C) (i w : Bool) (s t : Scene X B C)
    (h : Scene.step G (Op.setShapeKey i w) s = some t) :
    t.payload.shapeKey = (s.payload.setShapeKey i w).shapeKey := by
  simp only [Scene.step, Option.some.injEq] at h
  rw [← h]

theorem setShapeKey_false_ne_invalid (w : Bool) (m : ModelMeshPartPayload X B C) :
    (m.setShapeKey false w).shapeKey ≠ ShapeKey.invalid := by
  rw [setShapeKey_false_key]
  intro h
  have hm := congrArg ShapeKey.material h
  simp [ShapeKey.invalid, ShapeKey.Builder, ShapeKey.invalidate, ShapeKey.build] at hm

theorem run_cons (G : Geometry X B C) (op : Op X C) (ops : List (Op X C)) (s t : Scene X B C)
    (h : Scene.run G (op :: ops) s = some t) :
    ∃ u, Scene.step G op s = some u ∧ Scene.run G ops u = some t := by
  simp only [Scene.run] at h
  cases hs : Scene.step G op s with
  | none => simp [hs] at h
  | some u => exact ⟨u, rfl, by simpa [hs] using h⟩

/-- A run without `setShapeKey` keeps the stored pipeline key. -/
theorem run_shapeKey (G : Geometry X B C) (ops : List (Op X C)) :
    ∀ (s t : Scene X B C), Scene.run G ops s = some t →
      (∀ op ∈ ops, op.isSetShapeKey = false) → t.payload.shapeKey = s.payload.shapeKey := by
  induction ops with
  | nil =>
    intro s t h _
    simp only [Scene.run, Option.some.injEq] at h
    rw [← h]
  | cons op rest ih =>
    intro s t h hall
    obtain ⟨u, hu, hrun⟩ := run_cons G op rest s t h
    rw [ih u t hrun (fun o ho => hall o (List.mem_cons_of_mem op ho))]
    exact step_shapeKey G op s u hu (hall op (List.mem_cons_self op rest))

/-- A run that leaves the invalid sentinel holds a non-invalidating
`setShapeKey`. -/
theorem run_leaves_invalid (G : Geometry X B C) (ops : List (Op X C)) :
    ∀ (s t : Scene X B C), Scene.run G ops s = some t →
      s.payload.shapeKey = ShapeKey.invalid → t.payload.shapeKey ≠ ShapeKey.invalid →
      ∃ w, Op.setShapeKey false w ∈ ops := by
  induction ops with
  | nil =>
    intro s t h hs ht
    simp only [Scene.run, Option.some.injEq] at h
    rw [← h] at ht
    exact absurd hs ht
  | cons op rest ih =>
    intro s t h hs ht
    obtain ⟨u, hu, hrun⟩ := run_cons G op rest s t h
    by_cases hinv : u.payload.shapeKey = ShapeKey.invalid
    · obtain ⟨w, hw⟩ := ih u t hrun hinv ht
      exact ⟨w, List.mem_cons_of_mem op hw⟩
    · cases hop : op.isSetShapeKey with
      | false =>
        have := step_shapeKey G op s u hu hop
        rw [this] at hinv
        exact absurd hs hinv
      | true =>
        cases op with
        | setShapeKey i w =>
          cases i with
          | false => exact ⟨w, List.mem_cons_self _ rest⟩
          | true =>
            have := step_setShapeKey G true w s u hu
            exact absurd this hinv
        | _ => simp [Op.isSetShapeKey] at hop

/-- A run that enters the invalid sentinel holds an invalidating
`setShapeKey`. -/
theorem run_enters_invalid (G : Geometry X B C) (ops : List (Op X C)) :
    ∀ (s t : Scene X B C), Scene.run G ops s = some t →
      s.payload.shapeKey ≠ ShapeKey.invalid → t.payload.shapeKey = ShapeKey.invalid →
      ∃ w, Op.setShapeKey true w ∈ ops := by
  induction ops with
  | nil =>
    intro s t h hs ht
    simp only [Scene.run, Option.some.injEq] at h
    rw [← h] at ht
    exact absurd ht hs
  | cons op rest ih =>
    intro s t h hs ht
    obtain ⟨u, hu, hrun⟩ := run_cons G op rest s t h
    by_cases hinv : u.payload.shapeKey = ShapeKey.invalid
    · cases hop : op.isSetShapeKey with
      | false =>
        have := step_shapeKey G op s u hu hop
        rw [this] at hinv
        exact absurd hinv hs
      | true =>
        cases op with
        | setShapeKey i w =>
          cases i with
          | true => exact ⟨w, List.mem_cons_self _ rest⟩
          | false =>
            have := step_setShapeKey G false w s u hu
            rw [this] at hinv
            exact absurd hinv (setShapeKey_false_ne_invalid w s.payload)
        | _ => simp [Op.isSetShapeKey] at hop
    · obtain ⟨w, hw⟩ := ih u t hrun hinv ht
      exact ⟨w, List.mem_cons_of_mem op hw⟩

/-- C9: along every run of operations of a skinned payload that completes,
the value of `getShapeKey()` is kept when no operation of the run is a
`setShapeKey` (so `updateMeshPart`, `updateTransform`,
`updateTransformForSkinnedMesh`, `addMaterial`, `removeMaterial`,
`updateKey`, `setLayer`, `updateClusterBuffer`, `computeAdjustedLocalBound`
and `render` each keep it); a key that is the invalid sentinel stops being
it only when the run holds a `setShapeKey` with `invalidateShapeKey = false`,
and a key that is not the sentinel becomes it only when the run holds a
`setShapeKey` with `invalidateShapeKey = true`. -/
theorem shapeKey_written_by_setShapeKey_only (G : Geometry X B C) (ops : List (Op X C))
    (s t : Scene X B C) (h : Scene.run G ops s = some t) :
    ((∀ op ∈ ops, op.isSetShapeKey = false) →
      t.payload.getShapeKey = s.payload.getShapeKey) ∧
    (s.payload.getShapeKey = ShapeKey.invalid → t.payload.getShapeKey ≠ ShapeKey.invalid →
      ∃ w, Op.setShapeKey false w ∈ ops) ∧
    (s.payload.getShapeKey ≠ ShapeKey.invalid → t.payload.getShapeKey = ShapeKey.invalid →
      ∃ w, Op.setShapeKey true w ∈ ops) :=
  ⟨run_shapeKey G ops s t h, run_leaves_invalid G ops s t h, run_enters_invalid G ops s t h⟩

end KeyWriters

/-- The sample run completes in the state `sampleSceneAfter`. -/
theorem sampleOps_run :
    Scene.run translationGeometry sampleOps sampleScene = some sampleSceneAfter := by
  simp only [sampleOps, Scene.run, Scene.step, computeAdjustedLocalBound_eq]
  decide

/-- Witness of C9: the sample run of every operation other than
`setShapeKey` keeps the invalid key of the sample scene; a run of
`setShapeKey(false, true)` leaves the sentinel; a run of
`setShapeKey(true, false)` enters it again. -/
theorem shapeKey_written_by_setShapeKey_only_witness :
    (Scene.run translationGeometry sampleOps sampleScene = some sampleSceneAfter ∧
      (∀ op ∈ sampleOps, op.isSetShapeKey = false) ∧
      sampleSceneAfter.payload.getShapeKey = sampleScene.payload.getShapeKey) ∧
    (Scene.run translationGeometry [Op.setShapeKey false true] sampleScene =
        some { sampleScene with payload := sampleSkinned.setShapeKey false true } ∧
      sampleScene.payload.getShapeKey = ShapeKey.invalid ∧
      (sampleSkinned.setShapeKey false true).getShapeKey ≠ ShapeKey.invalid ∧
      ∃ w, Op.setShapeKey false w ∈ [(Op.setShapeKey false true : Op Vec3 Vec3)]) ∧
    (Scene.run translationGeometry [Op.setShapeKey true false]
        { sampleScene with payload := sampleSkinned.setShapeKey false true } =
        some sampleScene ∧
      (sampleSkinned.setShapeKey false true).getShapeKey ≠ ShapeKey.invalid ∧
      sampleScene.payload.getShapeKey = ShapeKey.invalid ∧
      ∃ w, Op.setShapeKey true w ∈ [(Op.setShapeKey true false : Op Vec3 Vec3)]) :=
  ⟨⟨sampleOps_run, by decide,
      (shapeKey_written_by_setShapeKey_only translationGeometry sampleOps sampleScene
        sampleSceneAfter sampleOps_run).1 (by decide)⟩,
    ⟨rfl, rfl, by decide,
      (shapeKey_written_by_setShapeKey_only translationGeometry [Op.setShapeKey false true]
        sampleScene { sampleScene with payload := sampleSkinned.setShapeKey false true }
        rfl).2.1 rfl (by decide)⟩,
    ⟨rfl, by decide, rfl,
      (shapeKey_written_by_setShapeKey_only translationGeometry [Op.setShapeKey true false]
        { sampleScene with payload := sampleSkinned.setShapeKey false true } sampleScene
        rfl).2.2 (by decide) rfl⟩⟩

/-! ## The flags of the pipeline key -/

section KeyFlags

variable {X B C : Type}

theorem topMaterialKey_eq (m : ModelMeshPartPayload X B C) :
    topMaterialKey m = drawMaterialKeyOf m.drawMaterials := rfl

/-- A flag of the key of the topmost material is set exactly when a material
is bound on top of the stack and its key has the flag. -/
theorem drawMaterialKeyOf_flag (s : MultiMaterial) (flag : MaterialKey → Bool)
    (hempty : flag MaterialKey.empty = false) :
    flag (drawMaterialKeyOf s) = true ↔
      ∃ material, s.top.material = some material ∧ flag material.getKey = true := by
  unfold drawMaterialKeyOf
  cases h : s.top.material with
  | none => simp [hempty]
  | some material => simp

/-- Counterexample to C11: with an unlit material on top, the key stored by
`setShapeKey(false, true)` has the wireframe bit and the unlit bit, so the
wireframe bit does not exclude every material-derived feature bit. -/
theorem setShapeKey_wireframe_with_unlit :
    ((sampleSkinned.addMaterial ⟨some unlitMaterial, 0⟩).setShapeKey false
        true).getShapeKey.wireframe = true ∧
    ((sampleSkinned.addMaterial ⟨some unlitMaterial, 0⟩).setShapeKey false
        true).getShapeKey.unlit = true ∧
    ¬ (((sampleSkinned.addMaterial ⟨some unlitMaterial, 0⟩).setShapeKey false
          true).getShapeKey.wireframe = true →
        ((sampleSkinned.addMaterial ⟨some unlitMaterial, 0⟩).setShapeKey false
          true).getShapeKey.unlit = false) := by
  decide

/-- C11, amended: in every pipeline key stored by `setShapeKey`, if the
wireframe bit is set then none of the skinned, translucent, tangents,
specular and lightmap bits is set, and the unlit bit is then the unlit flag
of the topmost material. -/
theorem setShapeKey_wireframe_exclusive (invalidateShapeKey isWireframe : Bool)
    (m : ModelMeshPartPayload X B C)
    (h : (m.setShapeKey invalidateShapeKey isWireframe).getShapeKey.wireframe = true) :
    (m.setShapeKey invalidateShapeKey isWireframe).getShapeKey.skinned = false ∧
    (m.setShapeKey invalidateShapeKey isWireframe).getShapeKey.translucent = false ∧
    (m.setShapeKey invalidateShapeKey isWireframe).getShapeKey.tangents = false ∧
    (m.setShapeKey invalidateShapeKey isWireframe).getShapeKey.specular = false ∧
    (m.setShapeKey invalidateShapeKey isWireframe).getShapeKey.lightmap = false ∧
    (m.setShapeKey invalidateShapeKey isWireframe).getShapeKey.unlit =
      (drawMaterialKeyOf m.drawMaterials).isUnlit := by
  cases invalidateShapeKey with
  | true =>
    have hfalse : false = true := h
    exact absurd hfalse (by decide)
  | false =>
    unfold ModelMeshPartPayload.getShapeKey at h ⊢
    rw [setShapeKey_false_key] at h ⊢
    simp only at h
    subst h
    exact ⟨rfl, rfl, rfl, rfl, rfl, rfl⟩

/-- Witness of C11, amended: the sample skinned payload under an unlit
material, in wireframe. -/
theorem setShapeKey_wireframe_exclusive_witness :
    ((sampleSkinned.addMaterial ⟨some unlitMaterial, 0⟩).setShapeKey false
        true).getShapeKey.wireframe = true ∧
    ((sampleSkinned.addMaterial ⟨some unlitMaterial, 0⟩).setShapeKey false
        true).getShapeKey.skinned = false ∧
    ((sampleSkinned.addMaterial ⟨some unlitMaterial, 0⟩).setShapeKey false
        true).getShapeKey.unlit =
      (drawMaterialKeyOf (sampleSkinned.addMaterial ⟨some unlitMaterial, 0⟩).drawMaterials).isUnlit :=
  ⟨by decide,
    (setShapeKey_wireframe_exclusive false true
      (sampleSkinned.addMaterial ⟨some unlitMaterial, 0⟩) (by decide)).1,
    (setShapeKey_wireframe_exclusive false true
      (sampleSkinned.addMaterial ⟨some unlitMaterial, 0⟩) (by decide)).2.2.2.2.2⟩

/-- C12: the tangents bit of the key that `getShapeKey()` returns after
`setShapeKey(false, isWireframe)` is set exactly when the call is not in
wireframe, the topmost material declares a normal map and the cached
tangent-presence flag is true; so it is set only if both hold, and without
wireframe exactly when both hold.  The topmost material declares a normal
map exactly when a material is bound on top and its key has the flag. -/
theorem setShapeKey_tangents (isWireframe : Bool) (m : ModelMeshPartPayload X B C) :
    (m.setShapeKey false isWireframe).getShapeKey.tangents =
      (!isWireframe && ((drawMaterialKeyOf m.drawMaterials).isNormalMap && m.hasTangents)) ∧
    (m.setShapeKey false false).getShapeKey.tangents =
      ((drawMaterialKeyOf m.drawMaterials).isNormalMap && m.hasTangents) ∧
    ((m.setShapeKey false isWireframe).getShapeKey.tangents = true →
      (drawMaterialKeyOf m.drawMaterials).isNormalMap = true ∧ m.hasTangents = true) ∧
    ((drawMaterialKeyOf m.drawMaterials).isNormalMap = true ↔
      ∃ material, m.drawMaterials.top.material = some material ∧
        material.getKey.isNormalMap = true) := by
  unfold ModelMeshPartPayload.getShapeKey
  rw [setShapeKey_false_key, setShapeKey_false_key, topMaterialKey_eq]
  refine ⟨rfl, rfl, ?_, drawMaterialKeyOf_flag m.drawMaterials MaterialKey.isNormalMap rfl⟩
  intro h
  simp only [Bool.and_eq_true] at h
  exact ⟨h.2.1, h.2.2⟩

/-- Witness of C12: the sample skinned payload, which has tangent data,
under a normal-mapped material and without wireframe. -/
theorem setShapeKey_tangents_witness :
    ((sampleSkinned.addMaterial ⟨some normalMapMaterial, 0⟩).setShapeKey false
        false).getShapeKey.tangents = true ∧
    (drawMaterialKeyOf
        (sampleSkinned.addMaterial ⟨some normalMapMaterial, 0⟩).drawMaterials).isNormalMap =
      true ∧
    (sampleSkinned.addMaterial ⟨some normalMapMaterial, 0⟩).hasTangents = true :=
  ⟨by decide,
    (setShapeKey_tangents false (sampleSkinned.addMaterial ⟨some normalMapMaterial, 0⟩)).2.2.1
      (by decide)⟩

/-- The pipeline key of a base payload, in closed form. -/
theorem getShapeKey_eq (p : MeshPartPayload X B) :
    p.getShapeKey = shapeKeyOfMaterialKey (drawMaterialKeyOf p.drawMaterials) := by
  have hk : (match p.drawMaterials.top.material with
      | some material => material.getKey
      | none => MaterialKey.empty) = drawMaterialKeyOf p.drawMaterials := rfl
  simp only [MeshPartPayload.getShapeKey, hk]
  rcases drawMaterialKeyOf p.drawMaterials with ⟨t, n, me, l, u⟩
  cases t <;> cases n <;> cases me <;> cases l <;> rfl

/-- Counterexample to C13: the sample base payload has no tangents bit while
its stack is empty, and has it as soon as a normal-mapped material is added,
without any update call. -/
theorem getShapeKey_tangents_of_normal_map :
    samplePayload.getShapeKey.tangents = false ∧
    (samplePayload.addMaterial ⟨some normalMapMaterial, 0⟩).getShapeKey.tangents = true := by
  decide

/-- C13, amended: `getShapeKey()` of a base payload is a function of the key
of the current topmost material alone, also right after `addMaterial` and
`removeMaterial`; it always has the has-material bit, never the skinned bit,
and it has the tangents bit exactly when the topmost material declares a
normal map. -/
theorem getShapeKey_of_top_material (p : MeshPartPayload X B) (layer : MaterialLayer)
    (material : Option Material) :
    p.getShapeKey = shapeKeyOfMaterialKey (drawMaterialKeyOf p.drawMaterials) ∧
    (p.addMaterial layer).getShapeKey =
      shapeKeyOfMaterialKey (drawMaterialKeyOf (p.drawMaterials.push layer)) ∧
    (p.removeMaterial material).getShapeKey =
      shapeKeyOfMaterialKey (drawMaterialKeyOf (p.drawMaterials.remove material)) ∧
    p.getShapeKey.material = true ∧
    p.getShapeKey.skinned = false ∧
    p.getShapeKey.tangents = (drawMaterialKeyOf p.drawMaterials).isNormalMap ∧
    ((drawMaterialKeyOf p.drawMaterials).isNormalMap = true ↔
      ∃ bound, p.drawMaterials.top.material = some bound ∧ bound.getKey.isNormalMap = true) := by
  refine ⟨getShapeKey_eq p, getShapeKey_eq (p.addMaterial layer),
    getShapeKey_eq (p.removeMaterial material), ?_, ?_, ?_,
    drawMaterialKeyOf_flag p.drawMaterials MaterialKey.isNormalMap rfl⟩
  · rw [getShapeKey_eq]; rfl
  · rw [getShapeKey_eq]; rfl
  · rw [getShapeKey_eq]; rfl

/-- C14: after `setLayer(isLayeredInFront, isLayeredInHUD)`, `getLayer()` is
the front layer when `isLayeredInFront` holds, whatever `isLayeredInHUD` is,
the HUD layer when only `isLayeredInHUD` holds, and the normal 3D layer when
neither holds; the call writes the layer only, and its result is the same
whatever layer was stored before. -/
theorem setLayer_getLayer (isLayeredInFront isLayeredInHUD : Bool)
    (m : ModelMeshPartPayload X B C) (previous : Layer) :
    (m.setLayer isLayeredInFront isLayeredInHUD).getLayer =
      (if isLayeredInFront then Layer.LAYER_3D_FRONT
        else if isLayeredInHUD then Layer.LAYER_3D_HUD else Layer.LAYER_3D) ∧
    (m.setLayer true isLayeredInHUD).getLayer = Layer.LAYER_3D_FRONT ∧
    (m.setLayer false true).getLayer = Layer.LAYER_3D_HUD ∧
    (m.setLayer false false).getLayer = Layer.LAYER_3D ∧
    m.setLayer isLayeredInFront isLayeredInHUD =
      { m with layer := (m.setLayer isLayeredInFront isLayeredInHUD).getLayer } ∧
    ({ m with layer := previous }).setLayer isLayeredInFront isLayeredInHUD =
      m.setLayer isLayeredInFront isLayeredInHUD := by
  refine ⟨?_, rfl, rfl, rfl, ?_, ?_⟩ <;>
    cases isLayeredInFront <;> cases isLayeredInHUD <;> rfl

end KeyFlags

/-! ## Rendering -/

section Rendering

variable {X B C : Type}

/-- A render of a base payload with a mesh and a context, in closed form. -/
theorem render_base_eq (p : MeshPartPayload X B) (a : RenderArgs X) (mesh : Mesh)
    (h : p.drawMesh = some mesh) :
    p.render (some a) =
      some (p, some
        { batch := a.batch ++ baseRenderCommands p mesh a.enableTexturing
          renderMode := a.renderMode
          enableTexturing := a.enableTexturing
          materialSwitches := a.materialSwitches + 1
          trianglesRendered := a.trianglesRendered + p.drawPart.numIndices / 3 }) := by
  simp [MeshPartPayload.render, MeshPartPayload.bindTransform, MeshPartPayload.bindMesh, h,
    MeshPartPayload.drawCall, baseRenderCommands]

/-- The commands that `bindMesh` of a skinned payload appends. -/
theorem bindMesh_skinned_eq (G : Geometry X B C) (m : ModelMeshPartPayload X B C)
    (batch : List (Command X)) (mesh : Mesh) (h : m.drawMesh = some mesh) :
    m.bindMesh G batch =
      some (batch ++ [Command.setIndexBuffer mesh.indexBuffer 0,
        Command.setInputFormat mesh.getVertexFormat] ++ skinnedVertexCommands G m mesh) := by
  unfold ModelMeshPartPayload.bindMesh skinnedVertexCommands
  rw [h]
  cases hb : m.isBlendShaped <;> cases hv : m.blendedVertexBuffer <;> simp

/-- The commands that `bindTransform` of a skinned payload appends. -/
theorem bindTransform_skinned_eq (m : ModelMeshPartPayload X B C) (batch : List (Command X))
    (renderMode : Nat) :
    m.bindTransform batch renderMode =
      batch ++ (match m.clusterBuffer with
        | some buffer => [Command.setSkinningUniformBuffer buffer.ident]
        | none => []) ++ [Command.setModelTransform m.transform] := by
  unfold ModelMeshPartPayload.bindTransform
  cases m.clusterBuffer <;> simp

/-- A render of a skinned payload with a mesh and a context, in closed form.
-/
theorem render_skinned_eq (G : Geometry X B C) (m : ModelMeshPartPayload X B C)
    (a : RenderArgs X) (mesh : Mesh) (h : m.drawMesh = some mesh) :
    m.render G (some a) =
      some (m, some
        { batch := a.batch ++ skinnedRenderCommands G m mesh a.enableTexturing
          renderMode := a.renderMode
          enableTexturing := a.enableTexturing
          materialSwitches := a.materialSwitches + 1
          trianglesRendered := a.trianglesRendered + m.drawPart.numIndices / 3 }) := by
  simp only [ModelMeshPartPayload.render, bindMesh_skinned_eq G m _ mesh h,
    bindTransform_skinned_eq, MeshPartPayload.drawCall, skinnedRenderCommands]
  simp

end Rendering

/-! ## Counters and recorded commands -/

section Counters

variable {X B C : Type}

/-- A render of the scene with a null context changes nothing. -/
theorem step_render_null (G : Geometry X B C) (s : Scene X B C) :
    Scene.step G (Op.render false) s = some s := rfl

/-- C15: for the base and for the skinned payload, `render` with a null
context returns at once: the payload is unchanged, there are no render
arguments to change, and the scene keeps its batch and counters.  With a
context, on a payload with a mesh bound, `render` adds exactly 1 to the
material-switch counter and exactly `numIndices / 3` (rounded down) of the
bound part to the triangles-rendered counter, whatever the material stack
holds; a part with 12 indices adds 4. -/
theorem render_counters (G : Geometry X B C) (p : MeshPartPayload X B)
    (m : ModelMeshPartPayload X B C) (a : RenderArgs X) (mesh : Mesh) (s : Scene X B C) :
    p.render none = some (p, none) ∧
    m.render G none = some (m, none) ∧
    Scene.step G (Op.render false) s = some s ∧
    (p.drawMesh = some mesh →
      ∃ r, p.render (some a) = some (p, some r) ∧
        r.materialSwitches = a.materialSwitches + 1 ∧
        r.trianglesRendered = a.trianglesRendered + p.drawPart.numIndices / 3) ∧
    (m.drawMesh = some mesh →
      ∃ r, m.render G (some a) = some (m, some r) ∧
        r.materialSwitches = a.materialSwitches + 1 ∧
        r.trianglesRendered = a.trianglesRendered + m.drawPart.numIndices / 3) ∧
    (p.drawMesh = some mesh → p.drawPart.numIndices = 12 →
      ∃ r, p.render (some a) = some (p, some r) ∧
        r.materialSwitches = a.materialSwitches + 1 ∧
        r.trianglesRendered = a.trianglesRendered + 4) := by
  refine ⟨rfl, rfl, step_render_null G s, ?_, ?_, ?_⟩
  · intro h
    exact ⟨_, render_base_eq p a mesh h, rfl, rfl⟩
  · intro h
    exact ⟨_, render_skinned_eq G m a mesh h, rfl, rfl⟩
  · intro h h12
    refine ⟨_, render_base_eq p a mesh h, rfl, ?_⟩
    simp [h12]

/-- Witness of C15: the sample base payload, a part of 12 indices with no
material bound, rendered into fresh arguments, and the sample skinned
payload. -/
theorem render_counters_witness :
    samplePayload.drawMaterials.top.material = none ∧
    (samplePayload.drawMesh = some sampleMesh ∧ samplePayload.drawPart.numIndices = 12 ∧
      ∃ r, samplePayload.render (some ⟨[], 0, true, 0, 0⟩) = some (samplePayload, some r) ∧
        r.materialSwitches = 0 + 1 ∧ r.trianglesRendered = 0 + 4) ∧
    (∃ r, samplePayload.render (some ⟨[], 0, true, 0, 0⟩) = some (samplePayload, some r) ∧
        r.materialSwitches = 0 + 1 ∧
        r.trianglesRendered = 0 + samplePayload.drawPart.numIndices / 3) ∧
    (sampleSkinned.drawMesh = some sampleMesh ∧
      ∃ r, sampleSkinned.render translationGeometry (some ⟨[], 0, true, 0, 0⟩) =
          some (sampleSkinned, some r) ∧
        r.materialSwitches = 0 + 1 ∧
        r.trianglesRendered = 0 + sampleSkinned.drawPart.numIndices / 3) :=
  ⟨rfl,
    ⟨rfl, rfl,
      (render_counters translationGeometry samplePayload sampleSkinned ⟨[], 0, true, 0, 0⟩
        sampleMesh sampleScene).2.2.2.2.2 rfl rfl⟩,
    (render_counters translationGeometry samplePayload sampleSkinned ⟨[], 0, true, 0, 0⟩
      sampleMesh sampleScene).2.2.2.1 rfl,
    ⟨rfl,
      (render_counters translationGeometry samplePayload sampleSkinned ⟨[], 0, true, 0, 0⟩
        sampleMesh sampleScene).2.2.2.2.1 rfl⟩⟩

/-- C19: a render of a base payload with a mesh bound and a context appends
to the batch, in this order, the model transform `drawTransform`, the index
buffer, the vertex format and the vertex stream of the mesh, the topmost
material, and one indexed triangle draw over `numIndices` indices from
`startIndex`; the draw is the last command and the only draw appended. -/
theorem render_commands (p : MeshPartPayload X B) (a : RenderArgs X) (mesh : Mesh)
    (h : p.drawMesh = some mesh) :
    (∃ r, p.render (some a) = some (p, some r) ∧
      r.batch = a.batch ++
        [Command.setModelTransform p.drawTransform,
         Command.setIndexBuffer mesh.indexBuffer 0,
         Command.setInputFormat mesh.getVertexFormat,
         Command.setInputStream 0 mesh.vertexStream 0,
         Command.bindMaterial p.drawMaterials.top.material a.enableTexturing,
         Command.drawIndexedTriangles p.drawPart.numIndices p.drawPart.startIndex] ∧
      r.batch.getLast? =
        some (Command.drawIndexedTriangles p.drawPart.numIndices p.drawPart.startIndex) ∧
      List.countP Command.isDraw r.batch = List.countP Command.isDraw a.batch + 1) ∧
    List.countP Command.isDraw (baseRenderCommands p mesh a.enableTexturing) = 1 := by
  refine ⟨⟨_, render_base_eq p a mesh h, rfl, ?_, ?_⟩, rfl⟩
  · simp [baseRenderCommands]
  · simp only [List.countP_append]
    rfl

/-- Witness of C19: the sample base payload rendered into fresh arguments. -/
theorem render_commands_witness :
    samplePayload.drawMesh = some sampleMesh ∧
    ∃ r, samplePayload.render (some ⟨[], 0, true, 0, 0⟩) = some (samplePayload, some r) ∧
      r.batch = [] ++
        [Command.setModelTransform samplePayload.drawTransform,
         Command.setIndexBuffer sampleMesh.indexBuffer 0,
         Command.setInputFormat sampleMesh.getVertexFormat,
         Command.setInputStream 0 sampleMesh.vertexStream 0,
         Command.bindMaterial samplePayload.drawMaterials.top.material true,
         Command.drawIndexedTriangles samplePayload.drawPart.numIndices
           samplePayload.drawPart.startIndex] ∧
      r.batch.getLast? =
        some (Command.drawIndexedTriangles samplePayload.drawPart.numIndices
          samplePayload.drawPart.startIndex) ∧
      List.countP Command.isDraw r.batch =
        List.countP Command.isDraw ([] : List (Command Vec3)) + 1 :=
  ⟨rfl, (render_commands samplePayload ⟨[], 0, true, 0, 0⟩ sampleMesh rfl).1⟩

/-- The model transform that a render of a skinned payload binds is the
member `_transform`. -/
theorem skinnedRenderCommands_modelTransform (G : Geometry X B C)
    (m : ModelMeshPartPayload X B C) (mesh : Mesh) (enableTexturing : Bool) (t : X) :
    Command.setModelTransform t ∈ skinnedRenderCommands G m mesh enableTexturing ↔
      t = m.transform := by
  unfold skinnedRenderCommands skinnedVertexCommands
  cases m.clusterBuffer <;> cases m.isBlendShaped <;> cases m.blendedVertexBuffer <;> simp

/-- The cluster buffer is among the commands of a render exactly when it is
present. -/
theorem skinnedRenderCommands_skinning (G : Geometry X B C)
    (m : ModelMeshPartPayload X B C) (mesh : Mesh) (enableTexturing : Bool) (i : Nat) :
    Command.setSkinningUniformBuffer i ∈ skinnedRenderCommands G m mesh enableTexturing ↔
      ∃ buffer, m.clusterBuffer = some buffer ∧ buffer.ident = i := by
  unfold skinnedRenderCommands skinnedVertexCommands
  cases m.clusterBuffer <;> cases m.isBlendShaped <;> cases m.blendedVertexBuffer <;>
    simp [eq_comm]

/-- C17: after `updateTransformForSkinnedMesh(R, Bt)` the member `_transform`
is `R`, and it is the model transform that `bindTransform` and `render` of
the skinned payload record into the batch, and the only one; `getBound()` is
the adjusted local bound, not the local bound, transformed by `Bt`; the call
writes no other member. -/
theorem updateTransformForSkinnedMesh_bound (G : Geometry X B C) (R Bt : X)
    (m : ModelMeshPartPayload X B C) (a : RenderArgs X) (mesh : Mesh) :
    (m.updateTransformForSkinnedMesh G R Bt).transform = R ∧
    (m.updateTransformForSkinnedMesh G R Bt).getBound = G.transform m.adjustedLocalBound Bt ∧
    m.updateTransformForSkinnedMesh G R Bt =
      { m with transform := R, worldBound := G.transform m.adjustedLocalBound Bt } ∧
    (m.updateTransformForSkinnedMesh G R Bt).bindTransform a.batch a.renderMode =
      a.batch ++ (match m.clusterBuffer with
        | some buffer => [Command.setSkinningUniformBuffer buffer.ident]
        | none => []) ++ [Command.setModelTransform R] ∧
    (m.drawMesh = some mesh →
      ∃ r, (m.updateTransformForSkinnedMesh G R Bt).render G (some a) =
          some (m.updateTransformForSkinnedMesh G R Bt, some r) ∧
        r.batch = a.batch ++
          skinnedRenderCommands G (m.updateTransformForSkinnedMesh G R Bt) mesh
            a.enableTexturing ∧
        ∀ t, Command.setModelTransform t ∈
            skinnedRenderCommands G (m.updateTransformForSkinnedMesh G R Bt) mesh
              a.enableTexturing ↔ t = R) := by
  refine ⟨rfl, rfl, rfl, bindTransform_skinned_eq _ a.batch a.renderMode, ?_⟩
  intro h
  refine ⟨_, render_skinned_eq G (m.updateTransformForSkinnedMesh G R Bt) a mesh h, rfl, ?_⟩
  intro t
  exact skinnedRenderCommands_modelTransform G _ mesh a.enableTexturing t

/-- Witness of C17: the sample skinned payload, whose adjusted bound is made
to differ from its local bound, rendered into fresh arguments. -/
theorem updateTransformForSkinnedMesh_bound_witness :
    sampleSceneAfter.payload.drawMesh = some sampleMesh ∧
    sampleSceneAfter.payload.adjustedLocalBound ≠ sampleSceneAfter.payload.localBound ∧
    ∃ r, ((sampleSceneAfter.payload.updateTransformForSkinnedMesh translationGeometry
          (Vec3.mk 4 0 0) (Vec3.mk 0 1 0)).render translationGeometry
          (some ⟨[], 0, true, 0, 0⟩)) =
        some (sampleSceneAfter.payload.updateTransformForSkinnedMesh translationGeometry
          (Vec3.mk 4 0 0) (Vec3.mk 0 1 0), some r) ∧
      r.batch = [] ++
        skinnedRenderCommands translationGeometry
          (sampleSceneAfter.payload.updateTransformForSkinnedMesh translationGeometry
            (Vec3.mk 4 0 0) (Vec3.mk 0 1 0)) sampleMesh true ∧
      ∀ t, Command.setModelTransform t ∈
          skinnedRenderCommands translationGeometry
            (sampleSceneAfter.payload.updateTransformForSkinnedMesh translationGeometry
              (Vec3.mk 4 0 0) (Vec3.mk 0 1 0)) sampleMesh true ↔ t = Vec3.mk 4 0 0 :=
  ⟨rfl, by decide,
    (updateTransformForSkinnedMesh_bound translationGeometry (Vec3.mk 4 0 0) (Vec3.mk 0 1 0)
      sampleSceneAfter.payload ⟨[], 0, true, 0, 0⟩ sampleMesh).2.2.2.2 rfl⟩

end Counters

/-! ## The world bound after a mesh rebinding -/

section WorldBound

variable {X B C : Type}

end WorldBound

/-! ## The visibility key -/

section VisibilityKey

variable {X B C : Type}

/-- The key stored by `updateKey` of the base payload, flag by flag. -/
theorem updateKey_base_key (isVisible isLayered canCastShadow : Bool) (tagBits : Nat)
    (isGroupCulled : Bool) (p : MeshPartPayload X B) :
    (p.updateKey isVisible isLayered canCastShadow tagBits isGroupCulled).itemKey =
      { typeShape := true
        invisible := !isVisible
        tagBits := tagBits % 256
        layered := isLayered
        shadowCaster := canCastShadow
        subMetaCulled := isGroupCulled
        deformed := false
        transparent := (drawMaterialKeyOf p.drawMaterials).isTranslucent } := by
  unfold MeshPartPayload.updateKey drawMaterialKeyOf
  cases p.drawMaterials.top.material with
  | none =>
    cases isVisible <;> cases isLayered <;> cases canCastShadow <;> cases isGroupCulled <;> rfl
  | some material =>
    rcases material with ⟨ident, ⟨t, n, me, l, u⟩⟩
    cases t <;> cases isVisible <;> cases isLayered <;> cases canCastShadow <;>
      cases isGroupCulled <;> rfl

/-- The key stored by `updateKey` of the skinned payload, flag by flag. -/
theorem updateKey_skinned_key (isVisible isLayered canCastShadow : Bool) (tagBits : Nat)
    (isGroupCulled : Bool) (m : ModelMeshPartPayload X B C) :
    (m.updateKey isVisible isLayered canCastShadow tagBits isGroupCulled).itemKey =
      { typeShape := true
        invisible := !isVisible
        tagBits := tagBits % 256
        layered := isLayered
        shadowCaster := canCastShadow
        subMetaCulled := isGroupCulled
        deformed := m.isBlendShaped || m.isSkinned
        transparent := (drawMaterialKeyOf m.drawMaterials).isTranslucent } := by
  unfold ModelMeshPartPayload.updateKey drawMaterialKeyOf
  cases m.drawMaterials.top.material with
  | none =>
    cases m.isBlendShaped <;> cases m.isSkinned <;> cases isVisible <;> cases isLayered <;>
      cases canCastShadow <;> cases isGroupCulled <;> rfl
  | some material =>
    rcases material with ⟨ident, ⟨t, n, me, l, u⟩⟩
    cases t <;> cases m.isBlendShaped <;> cases m.isSkinned <;> cases isVisible <;>
      cases isLayered <;> cases canCastShadow <;> cases isGroupCulled <;> rfl

/-- C18: for tag bits in the range of `uint8_t`, the key that `getKey()`
returns after `updateKey` has the shape type tag, the invisible flag exactly
when `isVisible` is false, the given tag bits, the layered, shadow-caster and
group-culled flags exactly as the arguments say, the transparent flag
exactly when the topmost material is bound and translucent, and the deformed
flag never on the base payload and exactly when the blend-shape flag or the
skin-attribute flag is cached on the skinned payload; the key of the skinned
payload is the key of the base payload with that one flag, and neither
depends on the key `k` stored before. -/
theorem updateKey_getKey (isVisible isLayered canCastShadow : Bool) (tagBits : Nat)
    (isGroupCulled : Bool) (p : MeshPartPayload X B) (m : ModelMeshPartPayload X B C)
    (k : ItemKey) (ht : tagBits < 256) :
    (p.updateKey isVisible isLayered canCastShadow tagBits isGroupCulled).getKey =
      { typeShape := true
        invisible := !isVisible
        tagBits := tagBits
        layered := isLayered
        shadowCaster := canCastShadow
        subMetaCulled := isGroupCulled
        deformed := false
        transparent := (drawMaterialKeyOf p.drawMaterials).isTranslucent } ∧
    (m.updateKey isVisible isLayered canCastShadow tagBits isGroupCulled).getKey =
      { typeShape := true
        invisible := !isVisible
        tagBits := tagBits
        layered := isLayered
        shadowCaster := canCastShadow
        subMetaCulled := isGroupCulled
        deformed := m.isBlendShaped || m.isSkinned
        transparent := (drawMaterialKeyOf m.drawMaterials).isTranslucent } ∧
    (m.updateKey isVisible isLayered canCastShadow tagBits isGroupCulled).getKey =
      { (m.toMeshPartPayload.updateKey isVisible isLayered canCastShadow tagBits
          isGroupCulled).getKey with deformed := m.isBlendShaped || m.isSkinned } ∧
    ({ p with itemKey := k }).updateKey isVisible isLayered canCastShadow tagBits
        isGroupCulled =
      p.updateKey isVisible isLayered canCastShadow tagBits isGroupCulled ∧
    ({ m with itemKey := k }).updateKey isVisible isLayered canCastShadow tagBits
        isGroupCulled =
      m.updateKey isVisible isLayered canCastShadow tagBits isGroupCulled ∧
    ((drawMaterialKeyOf p.drawMaterials).isTranslucent = true ↔
      ∃ material, p.drawMaterials.top.material = some material ∧
        material.getKey.isTranslucent = true) := by
  have hmod : tagBits % 256 = tagBits := Nat.mod_eq_of_lt ht
  refine ⟨?_, ?_, ?_, rfl, rfl,
    drawMaterialKeyOf_flag p.drawMaterials MaterialKey.isTranslucent rfl⟩
  · unfold MeshPartPayload.getKey
    rw [updateKey_base_key, hmod]
  · unfold ModelMeshPartPayload.getKey MeshPartPayload.getKey
    rw [updateKey_skinned_key, hmod]
  · unfold ModelMeshPartPayload.getKey MeshPartPayload.getKey
    rw [updateKey_skinned_key, updateKey_base_key]

/-- Witness of C18: an invisible, shadow-casting update with tag bits 5 on
the sample base payload under a translucent material and on the sample
skinned payload. -/
theorem updateKey_getKey_witness :
    5 < 256 ∧
    ((samplePayload.addMaterial ⟨some translucentMaterial, 0⟩).updateKey false false true 5
        false).getKey = ⟨true, true, 5, false, true, false, false, true⟩ ∧
    (sampleSkinned.updateKey false false true 5 false).getKey =
      ⟨true, true, 5, false, true, false, true, false⟩ :=
  ⟨by decide,
    (updateKey_getKey false false true 5 false
      (samplePayload.addMaterial ⟨some translucentMaterial, 0⟩) sampleSkinned ItemKey.Builder
      (by decide)).1,
    (updateKey_getKey false false true 5 false
      (samplePayload.addMaterial ⟨some translucentMaterial, 0⟩) sampleSkinned ItemKey.Builder
      (by decide)).2.1⟩

end VisibilityKey

/-! ## The cluster buffer at render -/

section SkinningUniform

variable {X B C : Type}

/-- One render of the scene with its context keeps the payload and the
allocator. -/
theorem step_render_true (G : Geometry X B C) (s : Scene X B C) (mesh : Mesh)
    (h : s.payload.drawMesh = some mesh) :
    ∃ t, Scene.step G (Op.render true) s = some t ∧ t.payload = s.payload ∧
      t.allocated = s.allocated ∧
      t.args.batch =
        s.args.batch ++ skinnedRenderCommands G s.payload mesh s.args.enableTexturing ∧
      t.args.enableTexturing = s.args.enableTexturing := by
  refine ⟨{ s with args :=
      { batch := s.args.batch ++ skinnedRenderCommands G s.payload mesh s.args.enableTexturing
        renderMode := s.args.renderMode
        enableTexturing := s.args.enableTexturing
        materialSwitches := s.args.materialSwitches + 1
        trianglesRendered := s.args.trianglesRendered + s.payload.drawPart.numIndices / 3 } },
    ?_, rfl, rfl, rfl, rfl⟩
  simp only [Scene.step, render_skinned_eq G s.payload s.args mesh h, Option.map,
    Option.getD]

/-- Every number of renders in a row completes and keeps the payload. -/
theorem run_renders (G : Geometry X B C) (mesh : Mesh) (n : Nat) :
    ∀ s : Scene X B C, s.payload.drawMesh = some mesh →
      ∃ t, Scene.run G (List.replicate n (Op.render true)) s = some t ∧
        t.payload = s.payload ∧ t.allocated = s.allocated := by
  induction n with
  | zero => intro s _; exact ⟨s, rfl, rfl, rfl⟩
  | succ k ih =>
    intro s h
    obtain ⟨u, hu, hp, ha, _, _⟩ := step_render_true G s mesh h
    obtain ⟨t, ht, htp, hta⟩ := ih u (by rw [hp]; exact h)
    refine ⟨t, ?_, by rw [htp, hp], by rw [hta, ha]⟩
    simp only [List.replicate_succ, Scene.run, hu, Option.bind]
    exact ht

/-- C20: a render of a skinned payload records the cluster buffer as the
skinning uniform exactly when the buffer is present.  A call of
`updateClusterBuffer` with at most one cluster transform changes nothing, so
after the allocating call `cs` and any calls `few` with at most one cluster
transform the payload still holds the buffer allocated for `cs` with the
contents `cs`; renders keep the payload, so each of any number of renders
records that buffer as the skinning uniform. -/
theorem clusterBuffer_bound_when_present (G : Geometry X B C)
    (m : ModelMeshPartPayload X B C) (a : RenderArgs X) (mesh : Mesh)
    (s : ModelMeshPartPayload X B C × Nat) (cs : List C) (few : List (List C))
    (scene : Scene X B C) (n : Nat) :
    (m.drawMesh = some mesh →
      ∃ r, m.render G (some a) = some (m, some r) ∧
        r.batch = a.batch ++ skinnedRenderCommands G m mesh a.enableTexturing ∧
        ∀ i, Command.setSkinningUniformBuffer i ∈
            skinnedRenderCommands G m mesh a.enableTexturing ↔
          ∃ buffer, m.clusterBuffer = some buffer ∧ buffer.ident = i) ∧
    ((∀ c ∈ few, c.length ≤ 1) → Scene.updateClusterBuffers few s = s) ∧
    (s.1.clusterBuffer = none → 1 < cs.length → (∀ c ∈ few, c.length ≤ 1) →
      (Scene.updateClusterBuffers (cs :: few) s).1.clusterBuffer = some ⟨s.2, cs⟩ ∧
      Command.setSkinningUniformBuffer s.2 ∈
        skinnedRenderCommands G (Scene.updateClusterBuffers (cs :: few) s).1 mesh
          a.enableTexturing) ∧
    (scene.payload.drawMesh = some mesh →
      ∃ t, Scene.run G (List.replicate n (Op.render true)) scene = some t ∧
        t.payload = scene.payload) := by
  refine ⟨?_, updateClusterBuffers_few few s, ?_, ?_⟩
  · intro h
    exact ⟨_, render_skinned_eq G m a mesh h, rfl,
      fun i => skinnedRenderCommands_skinning G m mesh a.enableTexturing i⟩
  · intro hb hcs hfew
    have hstep : Scene.updateClusterBuffers (cs :: few) s =
        Scene.updateClusterBuffers few (ModelMeshPartPayload.updateClusterBuffer cs s) := by
      simp [Scene.updateClusterBuffers]
    have hbuf : (Scene.updateClusterBuffers (cs :: few) s).1.clusterBuffer =
        some ⟨s.2, cs⟩ := by
      rw [hstep, updateClusterBuffers_few few _ hfew, updateClusterBuffer_absent cs s hcs hb]
    refine ⟨hbuf, ?_⟩
    rw [skinnedRenderCommands_skinning]
    exact ⟨⟨s.2, cs⟩, hbuf, rfl⟩
  · intro h
    obtain ⟨t, ht, hp, _⟩ := run_renders G mesh n scene h
    exact ⟨t, ht, hp⟩

/-- Witness of C20: the sample skinned payload after an allocating call with
two transforms, a call with one and a call with none, and three renders of
the sample scene after the sample run. -/
theorem clusterBuffer_bound_when_present_witness :
    (sampleSkinned.drawMesh = some sampleMesh ∧
      ∃ r, sampleSkinned.render translationGeometry (some ⟨[], 0, true, 0, 0⟩) =
          some (sampleSkinned, some r) ∧
        r.batch = [] ++ skinnedRenderCommands translationGeometry sampleSkinned sampleMesh true ∧
        ∀ i, Command.setSkinningUniformBuffer i ∈
            skinnedRenderCommands translationGeometry sampleSkinned sampleMesh true ↔
          ∃ buffer, sampleSkinned.clusterBuffer = some buffer ∧ buffer.ident = i) ∧
    (Scene.updateClusterBuffers [[Vec3.mk 9 0 0], []]
        (sampleSceneAfter.payload, 1) = (sampleSceneAfter.payload, 1)) ∧
    ((Scene.updateClusterBuffers [[Vec3.mk 5 0 0, Vec3.mk 0 7 0], [Vec3.mk 9 0 0], []]
        (sampleSkinned, 0)).1.clusterBuffer = some ⟨0, [Vec3.mk 5 0 0, Vec3.mk 0 7 0]⟩ ∧
      Command.setSkinningUniformBuffer 0 ∈
        skinnedRenderCommands translationGeometry
          (Scene.updateClusterBuffers [[Vec3.mk 5 0 0, Vec3.mk 0 7 0], [Vec3.mk 9 0 0], []]
            (sampleSkinned, 0)).1 sampleMesh true) ∧
    (∃ t, Scene.run translationGeometry (List.replicate 3 (Op.render true)) sampleSceneAfter =
        some t ∧ t.payload = sampleSceneAfter.payload) :=
  ⟨⟨rfl,
      (clusterBuffer_bound_when_present translationGeometry sampleSkinned ⟨[], 0, true, 0, 0⟩
        sampleMesh (sampleSkinned, 0) [] [] sampleScene 0).1 rfl⟩,
    (clusterBuffer_bound_when_present translationGeometry sampleSkinned ⟨[], 0, true, 0, 0⟩
      sampleMesh (sampleSceneAfter.payload, 1) [] [[Vec3.mk 9 0 0], []] sampleScene 0).2.1
      (by decide),
    (clusterBuffer_bound_when_present translationGeometry sampleSkinned ⟨[], 0, true, 0, 0⟩
      sampleMesh (sampleSkinned, 0) [Vec3.mk 5 0 0, Vec3.mk 0 7 0] [[Vec3.mk 9 0 0], []]
      sampleScene 0).2.2.1 rfl (by decide) (by decide),
    (clusterBuffer_bound_when_present translationGeometry sampleSkinned ⟨[], 0, true, 0, 0⟩
      sampleMesh (sampleSkinned, 0) [] [] sampleSceneAfter 3).2.2.2 rfl⟩

end SkinningUniform
